import Mathlib

/-!
Contact form validation and submission (`src/js/script.js`, class `ContactFormHandler`).

A shallow embedding of the `ContactFormHandler` class of the portfolio page script, and
theorems about its field validation, form validation and submission flow.

Modelling conventions:

* A JavaScript string is the list of its UTF-16 code units (`JSString`), so that
  `List.length` is the `.length` property and a regular expression without the `u` flag
  consumes one list element at a time.
* `String.prototype.trim` and the regular-expression class `\s` use the same set of code
  units (ECMAScript `WhiteSpace` together with `LineTerminator`), here `isWhiteSpace`.
* A regular expression is a value of `Regex`; `Regex.test` is a derivative matcher, which is
  proved equivalent to the usual denotational reading `Regex.Matches`.
* The page is part of the state (`Handler`). The four controls with ids `name`, `email`,
  `subject`, `message` and the submit button are present; the elements that the script
  itself tests for (`.error-message`, `#form-message`, `#form-message-text`,
  `.loading-spinner`) are optional. The `name` attribute of a control is a free string, as
  `validateField` reads `field.name` while `validateForm` looks the controls up by id.
* The `.error-message` elements are kept in the page and each control refers to the one that
  `field.parentNode.querySelector('.error-message')` finds, so that controls under one parent
  share one element and what is written through one control is seen through the others.
* `handleSubmit` is asynchronous. `handleSubmitStart` is the part before the `await`,
  `handleSubmitFinish` the part after it, which runs on whatever state the page is in when
  the transport settles; `handleSubmit` composes the two. The value of `Math.random()` and of
  `new Date().toISOString()` are parameters. `event.preventDefault()` acts on the event only
  and is left out.
-/

namespace ContactForm

/-! ## Strings -/

/-- A UTF-16 code unit. -/
abbrev CodeUnit := Nat

/-- A JavaScript string: its sequence of UTF-16 code units. -/
abbrev JSString := List CodeUnit

/-- UTF-16 encoding of one Unicode scalar value. -/
def utf16 (c : Char) : List CodeUnit :=
  if c.toNat < 0x10000 then [c.toNat]
  else [0xD800 + (c.toNat - 0x10000) / 0x400, 0xDC00 + (c.toNat - 0x10000) % 0x400]

/-- The JavaScript string denoted by a source literal. -/
def js (s : String) : JSString :=
  s.toList.flatMap utf16

/-- ECMAScript `WhiteSpace` or `LineTerminator` code units: what `trim` strips and what the
regular-expression class `\s` matches. -/
def isWhiteSpace (c : CodeUnit) : Bool :=
  c == 0x0009 || c == 0x000A || c == 0x000B || c == 0x000C || c == 0x000D ||
  c == 0x0020 || c == 0x00A0 || c == 0x1680 || (0x2000 ≤ c && c ≤ 0x200A) ||
  c == 0x2028 || c == 0x2029 || c == 0x202F || c == 0x205F || c == 0x3000 || c == 0xFEFF

/-- Removal of trailing white space (`String.prototype.trimEnd`). -/
def trimEnd (s : JSString) : JSString :=
  (s.reverse.dropWhile isWhiteSpace).reverse

/-- Removal of leading white space (`String.prototype.trimStart`). -/
def trimStart (s : JSString) : JSString :=
  s.dropWhile isWhiteSpace

/-- The method `String.prototype.trim`. -/
def trim (s : JSString) : JSString :=
  trimEnd (trimStart s)

/-! ## Regular expressions -/

/-- The fragment of regular expressions used by the script: classes of code units,
concatenation, alternation and iteration. A pattern literal `/^…$/` without flags is matched
against the whole string. -/
inductive Regex where
  | never : Regex
  | empty : Regex
  | cls : (CodeUnit → Bool) → Regex
  | seq : Regex → Regex → Regex
  | alt : Regex → Regex → Regex
  | star : Regex → Regex

namespace Regex

/-- One or more repetitions, the quantifier `+`. -/
def plus (r : Regex) : Regex :=
  seq r (star r)

/-- A literal code unit. -/
def lit (c : CodeUnit) : Regex :=
  cls (fun d => d == c)

/-- Whether the expression accepts the empty string. -/
def nullable : Regex → Bool
  | never => false
  | empty => true
  | cls _ => false
  | seq r s => nullable r && nullable s
  | alt r s => nullable r || nullable s
  | star _ => true

/-- Brzozowski derivative with respect to one code unit. -/
def deriv (c : CodeUnit) : Regex → Regex
  | never => never
  | empty => never
  | cls p => if p c then empty else never
  | seq r s => if nullable r then alt (seq (deriv c r) s) (deriv c s) else seq (deriv c r) s
  | alt r s => alt (deriv c r) (deriv c s)
  | star r => seq (deriv c r) (star r)

/-- The method `RegExp.prototype.test` for an anchored pattern: whole-string match. -/
def test : Regex → JSString → Bool
  | r, [] => nullable r
  | r, c :: s => test (deriv c r) s

/-- Denotational reading of a regular expression. -/
inductive Matches : Regex → JSString → Prop where
  | empty : Matches Regex.empty []
  | cls (p : CodeUnit → Bool) (c : CodeUnit) : p c = true → Matches (Regex.cls p) [c]
  | seq (r s : Regex) (u v : JSString) : Matches r u → Matches s v → Matches (Regex.seq r s) (u ++ v)
  | altLeft (r s : Regex) (u : JSString) : Matches r u → Matches (Regex.alt r s) u
  | altRight (r s : Regex) (u : JSString) : Matches s u → Matches (Regex.alt r s) u
  | starNil (r : Regex) : Matches (Regex.star r) []
  | starCons (r : Regex) (u v : JSString) :
      Matches r u → Matches (Regex.star r) v → Matches (Regex.star r) (u ++ v)

end Regex

/-- The class `[^\s@]`. -/
def notSpaceOrAt (c : CodeUnit) : Bool :=
  !(isWhiteSpace c || c == 0x40)

/-- The pattern `/^[^\s@]+@[^\s@]+\.[^\s@]+$/` of `validateField`. -/
def emailRegex : Regex :=
  Regex.seq (Regex.plus (Regex.cls notSpaceOrAt))
    (Regex.seq (Regex.lit 0x40)
      (Regex.seq (Regex.plus (Regex.cls notSpaceOrAt))
        (Regex.seq (Regex.lit 0x2E)
          (Regex.plus (Regex.cls notSpaceOrAt)))))

/-! ## The page: the elements the handler reads and writes -/

/-- The `classList` of an element: its class tokens. -/
abbrev ClassList := List JSString

/-- The method `classList.add` with one token. -/
def ClassList.add (l : ClassList) (tok : JSString) : ClassList :=
  if tok ∈ l then l else l ++ [tok]

/-- The method `classList.remove` with one token. -/
def ClassList.remove (l : ClassList) (tok : JSString) : ClassList :=
  l.filter (fun t => t != tok)

/-- An element of class `error-message`, as found by
`field.parentNode.querySelector('.error-message')`. -/
structure ErrorElement where
  textContent : JSString
  classList : ClassList
  deriving DecidableEq

/-- One of the form controls, an `input` or `textarea` element, as it is stored in the page.
`errorRef` says which element `field.parentNode.querySelector('.error-message')` returns:
`some i` for the element number `i` of the page, `none` for `null` (a number beyond the
elements of the page stands for `null` as well). Controls under one parent have the same
`errorRef`. `defaultValue` is what `form.reset()` restores. -/
structure Control where
  name : JSString
  value : JSString
  defaultValue : JSString
  classList : ClassList
  errorRef : Option Nat
  deriving DecidableEq

/-- A control as a method sees it through `event.target`: its own attributes, and in
`errorElement` the current state of the element that
`field.parentNode.querySelector('.error-message')` returns (`none` for `null`). -/
structure Field where
  name : JSString
  value : JSString
  defaultValue : JSString
  classList : ClassList
  errorElement : Option ErrorElement
  deriving DecidableEq

/-- The element `#form-message`; `messageText` is the text content of its descendant
`#form-message-text`, `none` when there is no such descendant. -/
structure FormMessage where
  classList : ClassList
  messageText : Option JSString
  deriving DecidableEq

/-- The element `button[type="submit"]` of the form. `spinner` is the class list of its
descendant `.loading-spinner` (`none` when absent); `textContent` is the text content of
the node the script calls `buttonText`, which is the first `span:not(.loading-spinner)` or,
when `labelIsButton`, the button itself. -/
structure SubmitButton where
  disabled : Bool
  spinner : Option ClassList
  labelIsButton : Bool
  textContent : JSString
  deriving DecidableEq

/-- The object built by `getFormData`. -/
structure FormData where
  name : JSString
  email : JSString
  subject : JSString
  message : JSString
  timestamp : JSString
  deriving DecidableEq

/-- A line written to the console. -/
inductive ConsoleEntry where
  | log (label : JSString) (data : FormData)
  | error (label : JSString) (detail : JSString)
  deriving DecidableEq

/-- The identifiers that `validateForm` and `getFormData` pass to
`document.getElementById`. -/
inductive FieldId where
  | name | email | subject | message
  deriving DecidableEq

/-- The handler object together with the part of the document it works on: the flag
`this.isSubmitting`, the four elements with ids `name`, `email`, `subject`, `message`, the
`.error-message` elements that the controls refer to, `this.formMessage` (`none` when
`getElementById('form-message')` gave `null`), the submit button of `this.form`, the number
of pending timers set by `showMessage`, and the console output so far. -/
structure Handler where
  isSubmitting : Bool
  nameField : Control
  emailField : Control
  subjectField : Control
  messageField : Control
  errorElements : List ErrorElement
  formMessage : Option FormMessage
  submitButton : SubmitButton
  hideTimers : Nat
  console : List ConsoleEntry
  deriving DecidableEq

/-- The stored control with the given id. -/
def Handler.control (h : Handler) : FieldId → Control
  | .name => h.nameField
  | .email => h.emailField
  | .subject => h.subjectField
  | .message => h.messageField

/-- The call `document.getElementById(id)` for one of the four field ids: the control
together with the `.error-message` element reached from it. -/
def Handler.getElementById (h : Handler) (id : FieldId) : Field :=
  { name := (h.control id).name
    value := (h.control id).value
    defaultValue := (h.control id).defaultValue
    classList := (h.control id).classList
    errorElement := (h.control id).errorRef.bind fun i => h.errorElements[i]? }

/-- The attributes of a control after a method has worked on it. -/
def Control.update (c : Control) (f : Field) : Control :=
  { c with name := f.name, value := f.value, defaultValue := f.defaultValue,
           classList := f.classList }

/-- The page after a method has worked on the element with the given id: the control takes
the new attributes, and the `.error-message` element it refers to takes its new state, for
every control that refers to the same element. -/
def Handler.setElement (h : Handler) (id : FieldId) (f : Field) : Handler :=
  let store :=
    match (h.control id).errorRef, f.errorElement with
    | some i, some e => h.errorElements.set i e
    | _, _ => h.errorElements
  match id with
  | .name => { h with nameField := h.nameField.update f, errorElements := store }
  | .email => { h with emailField := h.emailField.update f, errorElements := store }
  | .subject => { h with subjectField := h.subjectField.update f, errorElements := store }
  | .message => { h with messageField := h.messageField.update f, errorElements := store }

/-! ## The class `ContactFormHandler` -/

namespace ContactFormHandler

/-- The per-field outcome: the locals `isValid` and `errorMessage` of `validateField`. -/
structure ValidationResult where
  valid : Bool
  message : JSString
  deriving DecidableEq

/-- The method `getFieldLabel`: `labels[fieldName] || fieldName`. The lookup is the one
among the four own properties of `labels`. For a name that `Object.prototype` defines
(`toString` and the like) the script's label is the text of the inherited member, which
depends on the engine and is not modelled: what is stated below about the text of a message
is stated for the four labelled names. -/
def getFieldLabel (fieldName : JSString) : JSString :=
  if fieldName = js "name" then js "Name"
  else if fieldName = js "email" then js "Email"
  else if fieldName = js "subject" then js "Subject"
  else if fieldName = js "message" then js "Message"
  else fieldName

/-- The values of `isValid` and `errorMessage` that `validateField` computes for a control
with the given `name` attribute and raw `value` (the source's required check and
`switch`). -/
def validationResult (fieldName rawValue : JSString) : ValidationResult :=
  let value := trim rawValue
  if value = [] then
    ⟨false, getFieldLabel fieldName ++ js " is required."⟩
  else if fieldName = js "email" then
    if !emailRegex.test value then ⟨false, js "Please enter a valid email address."⟩
    else ⟨true, js ""⟩
  else if fieldName = js "name" then
    if value.length < 2 then ⟨false, js "Name must be at least 2 characters long."⟩
    else ⟨true, js ""⟩
  else if fieldName = js "subject" then
    if value.length < 5 then ⟨false, js "Subject must be at least 5 characters long."⟩
    else ⟨true, js ""⟩
  else if fieldName = js "message" then
    if value.length < 10 then ⟨false, js "Message must be at least 10 characters long."⟩
    else ⟨true, js ""⟩
  else ⟨true, js ""⟩

/-- The method `clearFieldError`. -/
def clearFieldError (field : Field) : Field :=
  { field with
    classList := ClassList.remove (ClassList.remove field.classList (js "error")) (js "success")
    errorElement := field.errorElement.map fun e =>
      { textContent := js "", classList := ClassList.add e.classList (js "hidden") } }

/-- The method `showFieldError`. -/
def showFieldError (field : Field) (message : JSString) : Field :=
  { field with
    classList := ClassList.remove (ClassList.add field.classList (js "error")) (js "success")
    errorElement := field.errorElement.map fun e =>
      { textContent := message, classList := ClassList.remove e.classList (js "hidden") } }

/-- The method `showFieldSuccess`. -/
def showFieldSuccess (field : Field) : Field :=
  { field with classList := ClassList.remove (ClassList.add field.classList (js "success")) (js "error") }

/-- The method `validateField`, applied to `event.target`: the updated element and the
returned `isValid`. -/
def validateField (field : Field) : Field × Bool :=
  let r := validationResult field.name field.value
  let cleared := clearFieldError field
  if !r.valid then (showFieldError cleared r.message, r.valid)
  else (showFieldSuccess cleared, r.valid)

/-- The method `validateForm`: the `forEach` over the four ids, with the local `isValid`. -/
def validateForm (h : Handler) : Handler × Bool :=
  [FieldId.name, FieldId.email, FieldId.subject, FieldId.message].foldl
    (fun (acc : Handler × Bool) fieldName =>
      let r := validateField (acc.1.getElementById fieldName)
      (acc.1.setElement fieldName r.1, if !r.2 then false else acc.2))
    (h, true)

/-- The method `getFormData`; `now` is the value of `new Date().toISOString()`. -/
def getFormData (now : JSString) (h : Handler) : FormData :=
  { name := trim (h.getElementById .name).value
    email := trim (h.getElementById .email).value
    subject := trim (h.getElementById .subject).value
    message := trim (h.getElementById .message).value
    timestamp := now }

/-- The method `showLoadingState`. Assigning `textContent` of the button itself replaces
its children, the spinner included. -/
def showLoadingState (isLoading : Bool) (h : Handler) : Handler :=
  let b := h.submitButton
  let relabel (b1 : SubmitButton) (text : JSString) : SubmitButton :=
    if b1.textContent ≠ [] then
      { b1 with textContent := text, spinner := if b1.labelIsButton then none else b1.spinner }
    else b1
  if isLoading then
    let b1 : SubmitButton :=
      { b with disabled := true, spinner := b.spinner.map fun l => ClassList.remove l (js "hidden") }
    { h with submitButton := relabel b1 (js "Sending...") }
  else
    let b1 : SubmitButton :=
      { b with disabled := false, spinner := b.spinner.map fun l => ClassList.add l (js "hidden") }
    { h with submitButton := relabel b1 (js "Send Message") }

/-- The method `showMessage`. The assignment to `className` replaces the class tokens; a
message of type `'success'` also starts a timer that hides the element 5000 ms later. -/
def showMessage (message type : JSString) (h : Handler) : Handler :=
  match h.formMessage with
  | none => h
  | some m =>
    let severity := if type = js "error" then js "error" else js "success"
    let shown : FormMessage :=
      { classList := ClassList.remove [js "alert", js "alert-" ++ severity] (js "hidden")
        messageText := m.messageText.map fun _ => message }
    { h with
      formMessage := some shown
      hideTimers := if type = js "success" then h.hideTimers + 1 else h.hideTimers }

/-- The per-element part of `resetForm`: `form.reset()` restores the default value, then the
loop removes the validation classes and hides the error element. -/
def resetField (field : Field) : Field :=
  { field with
    value := field.defaultValue
    classList := ClassList.remove (ClassList.remove field.classList (js "error")) (js "success")
    errorElement := field.errorElement.map fun e =>
      { e with classList := ClassList.add e.classList (js "hidden") } }

/-- The method `resetForm`; the four fields are the `input` and `textarea` controls of the
form. -/
def resetForm (h : Handler) : Handler :=
  [FieldId.name, FieldId.email, FieldId.subject, FieldId.message].foldl
    (fun (acc : Handler) id => acc.setElement id (resetField (acc.getElementById id)))
    h

/-- The part of `simulateFormSubmission` that runs once the 2000 ms timer has fired: the
console line and the test `Math.random() < 0.1`. `draw` is the value of `Math.random()`;
no floating-point number lies between one tenth and the literal `0.1`, so the comparison
is one of rationals. The result is `Except.error` with the error text when the method
throws. -/
def simulateFormSubmission (formData : FormData) (draw : ℚ) (h : Handler) :
    Handler × Except JSString Unit :=
  let h1 := { h with console := h.console ++ [ConsoleEntry.log (js "Form submission:") formData] }
  if draw < 1 / 10 then (h1, Except.error (js "Simulated network error"))
  else (h1, Except.ok ())

/-- The synchronous part of `handleSubmit`, up to the `await`: the new state and, when the
transport was invoked, the payload passed to `simulateFormSubmission`. `now` is the value
of `new Date().toISOString()` read by `getFormData`. -/
def handleSubmitStart (now : JSString) (h : Handler) : Handler × Option FormData :=
  if h.isSubmitting then (h, none)
  else
    let v := validateForm h
    if !v.2 then
      (showMessage (js "Please fix the errors below.") (js "error") v.1, none)
    else
      let h1 := showLoadingState true { v.1 with isSubmitting := true }
      let formData := getFormData now h1
      (h1, some formData)

/-- The rest of `handleSubmit`, after the `await`: the transport outcome, then the `try`
tail or the `catch` block, then the `finally` block. `h` is the state at the time the
transport settles. -/
def handleSubmitFinish (formData : FormData) (draw : ℚ) (h : Handler) : Handler :=
  let t := simulateFormSubmission formData draw h
  let h2 :=
    match t.2 with
    | Except.ok _ =>
      resetForm (showMessage
        (js "Thank you for your message! I\x27ll get back to you soon.") (js "success") t.1)
    | Except.error detail =>
      showMessage (js "Sorry, there was an error sending your message. Please try again.")
        (js "error")
        { t.1 with
          console := t.1.console ++ [ConsoleEntry.error (js "Form submission error:") detail] }
  showLoadingState false { h2 with isSubmitting := false }

/-- The method `handleSubmit` run to completion with no other event in between. -/
def handleSubmit (now : JSString) (draw : ℚ) (h : Handler) : Handler :=
  match handleSubmitStart now h with
  | (h1, none) => h1
  | (h1, some formData) => handleSubmitFinish formData draw h1

end ContactFormHandler

/-! ## Tables, specification-side predicates and sample pages -/

open ContactFormHandler

/-- One turn of the loop of `validateForm`: `acc` holds the page and the local `isValid`. -/
def validateStep (acc : Handler × Bool) (fieldName : FieldId) : Handler × Bool :=
  let r := validateField (acc.1.getElementById fieldName)
  (acc.1.setElement fieldName r.1, if !r.2 then false else acc.2)

/-- The loop of `validateForm` over any list of ids; `validateForm` is its value on the four
ids, starting from `isValid = true`. -/
def validateLoop (ids : List FieldId) (acc : Handler × Bool) : Handler × Bool :=
  ids.foldl validateStep acc

/-- The loop of `resetForm` over any list of ids; `resetForm` is its value on the four
ids. -/
def resetLoop (ids : List FieldId) (h : Handler) : Handler :=
  ids.foldl (fun (acc : Handler) id => acc.setElement id (resetField (acc.getElementById id))) h

/-- What `resetForm` leaves of a control whose default value is `d`: that value, neither
validation class, and a hidden error element. -/
def ResetState (d : JSString) (f : Field) : Prop :=
  f.value = d ∧ f.defaultValue = d ∧ js "error" ∉ f.classList ∧ js "success" ∉ f.classList ∧
    ∀ e ∈ f.errorElement, js "hidden" ∈ e.classList

/-- An empty, hidden `.error-message` element. -/
def sampleErrorElement : ErrorElement :=
  { textContent := js "", classList := [js "error-message", js "hidden"] }

/-- A control with the given `name` attribute and value, no validation classes, seen together
with an empty, hidden error element. -/
def sampleField (name value : String) : Field :=
  { name := js name, value := js value, defaultValue := js "", classList := [],
    errorElement := some sampleErrorElement }

/-- A stored control with the given `name` attribute and value, no default value and no
validation classes, which refers to the `.error-message` element number `ref`. -/
def sampleControl (name value : String) (ref : Nat) : Control :=
  { name := js name, value := js value, defaultValue := js "", classList := [],
    errorRef := some ref }

/-- An idle handler on a page whose four controls have `name` equal to `id`, hold the given
values, and have each a parent and an error element of their own. -/
def samplePage (name email subject message : String) : Handler :=
  { isSubmitting := false
    nameField := sampleControl "name" name 0
    emailField := sampleControl "email" email 1
    subjectField := sampleControl "subject" subject 2
    messageField := sampleControl "message" message 3
    errorElements := [sampleErrorElement, sampleErrorElement, sampleErrorElement,
      sampleErrorElement]
    formMessage := some { classList := [js "alert", js "hidden"], messageText := some (js "") }
    submitButton :=
      { disabled := false, spinner := some [js "loading-spinner", js "hidden"],
        labelIsButton := false, textContent := js "Send Message" }
    hideTimers := 0
    console := [] }

/-- An idle handler on a page whose four controls are children of one parent, which holds a
single `.error-message` element: every control refers to that element. -/
def sharedParentPage (name email subject message : String) : Handler :=
  { samplePage name email subject message with
    nameField := sampleControl "name" name 0
    emailField := sampleControl "email" email 0
    subjectField := sampleControl "subject" subject 0
    messageField := sampleControl "message" message 0
    errorElements := [sampleErrorElement] }

/-- The labelled field names of the form. -/
def fieldLabels : List (JSString × JSString) :=
  [(js "name", js "Name"), (js "email", js "Email"), (js "subject", js "Subject"),
   (js "message", js "Message")]

/-- The outcome `TooShort` for a field with label `label` and minimum `m`. -/
def tooShort (label : String) (m : String) : ValidationResult :=
  ⟨false, js label ++ js " must be at least " ++ js m ++ js " characters long."⟩

/-- The three conditions by which the specification describes the email pattern: no white
space, exactly one `@`, and at least one `.` after the `@`. -/
def specEmailPattern (t : JSString) : Bool :=
  t.all (fun c => !isWhiteSpace c) && t.count 0x40 == 1 &&
    ((t.dropWhile (fun c => c != 0x40)).drop 1).contains 0x2E

/-- The state of `#form-message` after `showMessage` was called with the type `error`. -/
def errorShown (message : JSString) (m : FormMessage) : FormMessage :=
  { classList := [js "alert", js "alert-error"], messageText := m.messageText.map fun _ => message }

/-- The state of `#form-message` after `showMessage` was called with the type `success`. -/
def successShown (message : JSString) (m : FormMessage) : FormMessage :=
  { classList := [js "alert", js "alert-success"],
    messageText := m.messageText.map fun _ => message }

/-- The id string of each of the four controls, as listed in `validateForm`. -/
def FieldId.idString : FieldId → JSString
  | .name => js "name"
  | .email => js "email"
  | .subject => js "subject"
  | .message => js "message"

/-- An idle handler on a page with valid content whose `name` control declares the default
value `Your name` (an `input` with a `value` attribute). -/
def prefilledPage : Handler :=
  { samplePage "Al" "a@b.co" "Hello there" "This is a message" with
    nameField := { sampleControl "name" "Al" 0 with defaultValue := js "Your name" } }

/-! ## Correctness of the matcher -/

namespace Regex

theorem matches_never (s : JSString) : ¬ Matches never s := by
  intro h; cases h

theorem matches_empty_iff (s : JSString) : Matches empty s ↔ s = [] := by
  constructor
  · intro h; cases h; rfl
  · rintro rfl; exact Matches.empty

theorem matches_cls_iff (p : CodeUnit → Bool) (s : JSString) :
    Matches (cls p) s ↔ ∃ c, s = [c] ∧ p c = true := by
  constructor
  · intro h; cases h with
    | cls _ c hc => exact ⟨c, rfl, hc⟩
  · rintro ⟨c, rfl, hc⟩; exact Matches.cls p c hc

theorem matches_seq_iff (r s : Regex) (w : JSString) :
    Matches (seq r s) w ↔ ∃ u v, w = u ++ v ∧ Matches r u ∧ Matches s v := by
  constructor
  · intro h; cases h with
    | seq _ _ u v hu hv => exact ⟨u, v, rfl, hu, hv⟩
  · rintro ⟨u, v, rfl, hu, hv⟩; exact Matches.seq r s u v hu hv

theorem matches_alt_iff (r s : Regex) (w : JSString) :
    Matches (alt r s) w ↔ Matches r w ∨ Matches s w := by
  constructor
  · intro h; cases h with
    | altLeft _ _ _ h => exact Or.inl h
    | altRight _ _ _ h => exact Or.inr h
  · rintro (h | h)
    · exact Matches.altLeft r s w h
    · exact Matches.altRight r s w h

theorem nullable_iff (r : Regex) : nullable r = true ↔ Matches r [] := by
  induction r with
  | never => simp [nullable, matches_never]
  | empty => simp [nullable, matches_empty_iff]
  | cls p => simp [nullable, matches_cls_iff]
  | seq r s ihr ihs =>
    simp only [nullable, Bool.and_eq_true, ihr, ihs, matches_seq_iff]
    constructor
    · rintro ⟨hr, hs⟩; exact ⟨[], [], rfl, hr, hs⟩
    · rintro ⟨u, v, huv, hr, hs⟩
      have hu : u = [] := (List.append_eq_nil.mp huv.symm).1
      have hv : v = [] := (List.append_eq_nil.mp huv.symm).2
      subst hu; subst hv; exact ⟨hr, hs⟩
  | alt r s ihr ihs => simp [nullable, ihr, ihs, matches_alt_iff]
  | star r _ => simp [nullable, Matches.starNil]

/-- A non-empty match of an iteration starts with a non-empty match of its body. -/
theorem matches_star_cons (r : Regex) (c : CodeUnit) (w : JSString)
    (h : Matches (star r) (c :: w)) :
    ∃ u v, w = u ++ v ∧ Matches r (c :: u) ∧ Matches (star r) v := by
  generalize hq : star r = q at h
  generalize hx : c :: w = x at h
  induction h with
  | empty => cases hq
  | cls => cases hq
  | seq => cases hq
  | altLeft => cases hq
  | altRight => cases hq
  | starNil => cases hx
  | starCons r0 u v hu hv _ ihv =>
    cases hq
    cases u with
    | nil => exact ihv rfl (by simpa using hx)
    | cons d u =>
      simp only [List.cons_append, List.cons.injEq] at hx
      obtain ⟨rfl, rfl⟩ := hx
      exact ⟨u, v, rfl, hu, hv⟩

theorem matches_deriv_iff (c : CodeUnit) (r : Regex) :
    ∀ w, Matches (deriv c r) w ↔ Matches r (c :: w) := by
  induction r with
  | never => intro w; simp [deriv, matches_never]
  | empty => intro w; simp [deriv, matches_never, matches_empty_iff]
  | cls p =>
    intro w
    by_cases hp : p c = true
    · simp only [deriv, hp, ↓reduceIte, matches_empty_iff, matches_cls_iff, List.cons.injEq]
      constructor
      · rintro rfl; exact ⟨c, ⟨rfl, rfl⟩, hp⟩
      · rintro ⟨_, ⟨_, hw⟩, _⟩; exact hw
    · simp only [deriv, hp, matches_cls_iff]
      simp only [Bool.false_eq_true, ↓reduceIte, matches_never, false_iff]
      rintro ⟨d, hd, hpd⟩
      simp only [List.cons.injEq] at hd
      exact hp (hd.1 ▸ hpd)
  | seq r s ihr ihs =>
    intro w
    have key : Matches (seq r s) (c :: w) ↔
        (Matches (seq (deriv c r) s) w ∨ (Matches r [] ∧ Matches s (c :: w))) := by
      simp only [matches_seq_iff, ihr]
      constructor
      · rintro ⟨u, v, huv, hu, hv⟩
        cases u with
        | nil => right; simp only [List.nil_append] at huv; exact ⟨hu, huv ▸ hv⟩
        | cons d u =>
          simp only [List.cons_append, List.cons.injEq] at huv
          obtain ⟨rfl, rfl⟩ := huv
          exact Or.inl ⟨u, v, rfl, hu, hv⟩
      · rintro (⟨u, v, rfl, hu, hv⟩ | ⟨hr, hs⟩)
        · exact ⟨c :: u, v, rfl, hu, hv⟩
        · exact ⟨[], c :: w, rfl, hr, hs⟩
    by_cases hn : nullable r = true
    · simp only [deriv, hn, ↓reduceIte, matches_alt_iff, key, ihs]
      have := (nullable_iff r).mp hn
      tauto
    · simp only [deriv, hn, Bool.false_eq_true, ↓reduceIte, key]
      have : ¬ Matches r [] := fun h => hn ((nullable_iff r).mpr h)
      tauto
  | alt r s ihr ihs => intro w; simp [deriv, matches_alt_iff, ihr, ihs]
  | star r ih =>
    intro w
    simp only [deriv, matches_seq_iff, ih]
    constructor
    · rintro ⟨u, v, rfl, hu, hv⟩
      exact Matches.starCons r (c :: u) v hu hv
    · intro h
      exact matches_star_cons r c w h

/-- The derivative matcher decides the denotational reading. -/
theorem test_iff_matches (s : JSString) : ∀ r : Regex, test r s = true ↔ Matches r s := by
  induction s with
  | nil => intro r; simp [test, nullable_iff]
  | cons c s ih => intro r; simp [test, ih, matches_deriv_iff]

theorem matches_star_cls_iff (p : CodeUnit → Bool) (w : JSString) :
    Matches (star (cls p)) w ↔ ∀ c ∈ w, p c = true := by
  induction w with
  | nil => simp [Matches.starNil]
  | cons c w ih =>
    constructor
    · intro h
      obtain ⟨u, v, rfl, hu, hv⟩ := matches_star_cons _ c _ h
      obtain ⟨d, hd, hpd⟩ := (matches_cls_iff p _).mp hu
      simp only [List.cons.injEq] at hd
      obtain ⟨rfl, rfl⟩ := hd
      simp only [List.nil_append] at ih ⊢
      intro x hx
      rcases List.mem_cons.mp hx with rfl | hx
      · exact hpd
      · exact ih.mp hv x hx
    · intro h
      have h1 : Matches (cls p) [c] := Matches.cls p c (h c (List.mem_cons_self c w))
      have h2 : Matches (star (cls p)) w :=
        ih.mpr (fun x hx => h x (List.mem_cons_of_mem c hx))
      exact Matches.starCons (cls p) [c] w h1 h2

theorem matches_plus_cls_iff (p : CodeUnit → Bool) (w : JSString) :
    Matches (plus (cls p)) w ↔ w ≠ [] ∧ ∀ c ∈ w, p c = true := by
  simp only [plus, matches_seq_iff, matches_cls_iff, matches_star_cls_iff]
  constructor
  · rintro ⟨u, v, rfl, ⟨c, rfl, hc⟩, hv⟩
    refine ⟨by simp, ?_⟩
    intro x hx
    rcases List.mem_cons.mp hx with rfl | hx
    · exact hc
    · exact hv x hx
  · rintro ⟨hne, h⟩
    cases w with
    | nil => exact absurd rfl hne
    | cons c w =>
      exact ⟨[c], w, rfl, ⟨c, rfl, h c (List.mem_cons_self c w)⟩,
        fun x hx => h x (List.mem_cons_of_mem c hx)⟩

theorem matches_lit_iff (c : CodeUnit) (w : JSString) : Matches (lit c) w ↔ w = [c] := by
  simp [lit, matches_cls_iff]

end Regex

/-- The strings accepted by `emailRegex`: a non-empty local part, `@`, a non-empty domain
label part, `.`, and a non-empty last part, none of the three parts containing white space
or `@`. -/
theorem emailRegex_test_iff (t : JSString) :
    emailRegex.test t = true ↔
      ∃ a b c : JSString, t = a ++ 0x40 :: (b ++ 0x2E :: c) ∧
        a ≠ [] ∧ b ≠ [] ∧ c ≠ [] ∧
        (∀ x ∈ a, notSpaceOrAt x = true) ∧ (∀ x ∈ b, notSpaceOrAt x = true) ∧
        (∀ x ∈ c, notSpaceOrAt x = true) := by
  rw [Regex.test_iff_matches]
  simp only [emailRegex, Regex.matches_seq_iff, Regex.matches_plus_cls_iff,
    Regex.matches_lit_iff]
  constructor
  · rintro ⟨a, _, rfl, ⟨ha, ha2⟩, _, _, rfl, rfl, b, _, rfl, ⟨hb, hb2⟩, _, c, rfl, rfl, hc, hc2⟩
    exact ⟨a, b, c, by simp, ha, hb, hc, ha2, hb2, hc2⟩
  · rintro ⟨a, b, c, rfl, ha, hb, hc, ha2, hb2, hc2⟩
    exact ⟨a, _, rfl, ⟨ha, ha2⟩, [0x40], _, rfl, rfl, b, _, rfl, ⟨hb, hb2⟩, [0x2E], c, rfl,
      rfl, hc, hc2⟩

/-! ## Facts about `trim` -/

theorem trim_eq_nil_iff (s : JSString) : trim s = [] ↔ ∀ c ∈ s, isWhiteSpace c = true := by
  unfold trim trimEnd trimStart
  rw [List.reverse_eq_nil_iff, List.dropWhile_eq_nil_iff]
  constructor
  · intro h
    have hnil : s.dropWhile isWhiteSpace = [] := by
      cases hd : s.dropWhile isWhiteSpace with
      | nil => rfl
      | cons x l =>
        have hx : isWhiteSpace x = true := h x (by simp [hd])
        have hnot := List.head_dropWhile_not isWhiteSpace s (by simp [hd])
        simp only [hd, List.head_cons] at hnot
        simp [hx] at hnot
    exact List.dropWhile_eq_nil_iff.mp hnil
  · intro h
    have hnil : s.dropWhile isWhiteSpace = [] := List.dropWhile_eq_nil_iff.mpr h
    simp [hnil]

/-! ## Field validation -/

theorem getFieldLabel_of_mem (fieldName label : JSString)
    (h : (fieldName, label) ∈ fieldLabels) : getFieldLabel fieldName = label := by
  simp only [fieldLabels, List.mem_cons, Prod.mk.injEq, List.mem_singleton, List.not_mem_nil,
    or_false] at h
  rcases h with ⟨rfl, rfl⟩ | ⟨rfl, rfl⟩ | ⟨rfl, rfl⟩ | ⟨rfl, rfl⟩ <;> decide

theorem validateField_snd (field : Field) :
    (validateField field).2 = (validationResult field.name field.value).valid := by
  unfold validateField
  by_cases h : (validationResult field.name field.value).valid = true <;> simp [h]

/-- C1. For each of the field names `name`, `email`, `subject`, `message` and every raw
value that is empty or made of white space only, `validateField` computes `isValid = false`
with the message `<Label> is required.`, where the label is `Name`, `Email`, `Subject`,
`Message` respectively, and returns `false`; the result is the same whatever the
field-specific rule of that field would give. -/
theorem C1_required_on_blank (field : Field) (label : JSString)
    (hname : (field.name, label) ∈ fieldLabels)
    (hblank : ∀ c ∈ field.value, isWhiteSpace c = true) :
    validationResult field.name field.value = ⟨false, label ++ js " is required."⟩ ∧
      (validateField field).2 = false := by
  have ht : trim field.value = [] := (trim_eq_nil_iff _).mpr hblank
  have hr : validationResult field.name field.value = ⟨false, label ++ js " is required."⟩ := by
    simp only [validationResult, ht, ↓reduceIte, getFieldLabel_of_mem _ _ hname]
  exact ⟨hr, by rw [validateField_snd, hr]⟩

theorem C1_required_on_blank_witness :
    validationResult (js "email") (js " \t ") = ⟨false, js "Email is required."⟩ ∧
      (validateField (sampleField "email" " \t ")).2 = false :=
  C1_required_on_blank (sampleField "email" " \t ") (js "Email") (by decide) (by decide)

theorem validationResult_name (raw : JSString) (hne : trim raw ≠ []) :
    validationResult (js "name") raw =
      if (trim raw).length < 2 then tooShort "Name" "2" else ⟨true, js ""⟩ := by
  have h1 : js "name" ≠ js "email" := by decide
  have h2 : tooShort "Name" "2" = ⟨false, js "Name must be at least 2 characters long."⟩ := by
    decide
  simp only [validationResult, hne, h1, h2, ↓reduceIte]

theorem validationResult_subject (raw : JSString) (hne : trim raw ≠ []) :
    validationResult (js "subject") raw =
      if (trim raw).length < 5 then tooShort "Subject" "5" else ⟨true, js ""⟩ := by
  have h1 : js "subject" ≠ js "email" := by decide
  have h2 : js "subject" ≠ js "name" := by decide
  have h3 : tooShort "Subject" "5" =
      ⟨false, js "Subject must be at least 5 characters long."⟩ := by decide
  simp only [validationResult, hne, h1, h2, h3, ↓reduceIte]

theorem validationResult_message (raw : JSString) (hne : trim raw ≠ []) :
    validationResult (js "message") raw =
      if (trim raw).length < 10 then tooShort "Message" "10" else ⟨true, js ""⟩ := by
  have h1 : js "message" ≠ js "email" := by decide
  have h2 : js "message" ≠ js "name" := by decide
  have h3 : js "message" ≠ js "subject" := by decide
  have h4 : tooShort "Message" "10" =
      ⟨false, js "Message must be at least 10 characters long."⟩ := by decide
  simp only [validationResult, hne, h1, h2, h3, h4, ↓reduceIte]

/-- C2. For the fields `name`, `subject`, `message` with minimum 2, 5, 10 and every raw
value whose trimmed form is non-empty, `validateField` reports the field valid exactly when
the length of the trimmed value (its number of UTF-16 code units, the `.length` of the
script) is at least the minimum, and otherwise computes the message
`<Label> must be at least <m> characters long.`; in particular trimmed lengths 1, 4, 9 are
invalid and 2, 5, 10 are valid, and the white space around the value is not counted. -/
theorem C2_minimum_length (raw : JSString) (hne : trim raw ≠ []) :
    (((validationResult (js "name") raw).valid = true ↔ 2 ≤ (trim raw).length) ∧
      ((trim raw).length < 2 → validationResult (js "name") raw =
        ⟨false, js "Name must be at least 2 characters long."⟩) ∧
      ((trim raw).length = 1 → (validationResult (js "name") raw).valid = false) ∧
      ((trim raw).length = 2 → (validationResult (js "name") raw).valid = true)) ∧
    (((validationResult (js "subject") raw).valid = true ↔ 5 ≤ (trim raw).length) ∧
      ((trim raw).length < 5 → validationResult (js "subject") raw =
        ⟨false, js "Subject must be at least 5 characters long."⟩) ∧
      ((trim raw).length = 4 → (validationResult (js "subject") raw).valid = false) ∧
      ((trim raw).length = 5 → (validationResult (js "subject") raw).valid = true)) ∧
    (((validationResult (js "message") raw).valid = true ↔ 10 ≤ (trim raw).length) ∧
      ((trim raw).length < 10 → validationResult (js "message") raw =
        ⟨false, js "Message must be at least 10 characters long."⟩) ∧
      ((trim raw).length = 9 → (validationResult (js "message") raw).valid = false) ∧
      ((trim raw).length = 10 → (validationResult (js "message") raw).valid = true)) := by
  have e1 : tooShort "Name" "2" = ⟨false, js "Name must be at least 2 characters long."⟩ := by
    decide
  have e2 : tooShort "Subject" "5" =
      ⟨false, js "Subject must be at least 5 characters long."⟩ := by decide
  have e3 : tooShort "Message" "10" =
      ⟨false, js "Message must be at least 10 characters long."⟩ := by decide
  rw [validationResult_name raw hne, validationResult_subject raw hne,
    validationResult_message raw hne, e1, e2, e3]
  refine ⟨⟨?_, ?_, ?_, ?_⟩, ⟨?_, ?_, ?_, ?_⟩, ⟨?_, ?_, ?_, ?_⟩⟩
  all_goals first
    | (intro h; simp [h])
    | (split <;> simp <;> omega)

theorem C2_minimum_length_witness :
    trim (js "  Al ") ≠ [] ∧ (trim (js "  Al ")).length = 2 ∧
      (validationResult (js "name") (js "  Al ")).valid = true ∧
      validationResult (js "subject") (js "  Al ") =
        ⟨false, js "Subject must be at least 5 characters long."⟩ :=
  ⟨by decide, by decide,
    (C2_minimum_length (js "  Al ") (by decide)).1.2.2.2 (by decide),
    (C2_minimum_length (js "  Al ") (by decide)).2.1.2.1 (by decide)⟩

/-! ## The email rule -/

theorem notSpaceOrAt_iff (x : CodeUnit) :
    notSpaceOrAt x = true ↔ isWhiteSpace x = false ∧ x ≠ 0x40 := by
  simp [notSpaceOrAt]

/-- A string with `@` in neither `a` nor `r` splits around `@` in one way only. -/
theorem split_at_unique (a r pre post : JSString) (ha : 0x40 ∉ a) (hr : 0x40 ∉ r)
    (h : a ++ 0x40 :: r = pre ++ 0x40 :: post) : pre = a ∧ post = r := by
  rcases List.append_eq_append_iff.mp h with ⟨m, hpre, hm⟩ | ⟨m, ha2, hm⟩
  · cases m with
    | nil =>
      simp only [List.nil_append, List.cons.injEq, true_and] at hm
      exact ⟨by simpa using hpre, hm.symm⟩
    | cons x m =>
      simp only [List.cons_append, List.cons.injEq] at hm
      exact absurd (by rw [hm.2]; simp) hr
  · cases m with
    | nil =>
      simp only [List.nil_append, List.cons.injEq, true_and] at hm
      exact ⟨by simpa using ha2.symm, hm⟩
    | cons x m =>
      simp only [List.cons_append, List.cons.injEq] at hm
      exact absurd (by rw [ha2, ← hm.1]; simp) ha

/-- What every string accepted by `emailRegex` satisfies. -/
theorem emailRegex_accepts_only (t : JSString) (h : emailRegex.test t = true) :
    (∀ x ∈ t, isWhiteSpace x = false) ∧ t.count 0x40 = 1 ∧
      ∀ pre post, t = pre ++ 0x40 :: post → 0x2E ∈ post := by
  obtain ⟨a, b, c, rfl, -, -, -, ha, hb, hc⟩ := (emailRegex_test_iff t).mp h
  have na : 0x40 ∉ a := fun hm => ((notSpaceOrAt_iff _).mp (ha _ hm)).2 rfl
  have nb : 0x40 ∉ b := fun hm => ((notSpaceOrAt_iff _).mp (hb _ hm)).2 rfl
  have nc : 0x40 ∉ c := fun hm => ((notSpaceOrAt_iff _).mp (hc _ hm)).2 rfl
  refine ⟨?_, ?_, ?_⟩
  · intro x hx
    simp only [List.mem_append, List.mem_cons] at hx
    rcases hx with hx | rfl | hx | rfl | hx
    · exact ((notSpaceOrAt_iff _).mp (ha _ hx)).1
    · decide
    · exact ((notSpaceOrAt_iff _).mp (hb _ hx)).1
    · decide
    · exact ((notSpaceOrAt_iff _).mp (hc _ hx)).1
  · simp [List.count_append, List.count_cons, List.count_eq_zero_of_not_mem na,
      List.count_eq_zero_of_not_mem nb, List.count_eq_zero_of_not_mem nc]
  · intro pre post hsplit
    have hr : 0x40 ∉ b ++ 0x2E :: c := by
      simp only [List.mem_append, List.mem_cons, not_or]
      exact ⟨nb, by decide, nc⟩
    obtain ⟨-, rfl⟩ := split_at_unique a _ pre post na hr hsplit
    simp

theorem validationResult_email (raw : JSString) (hne : trim raw ≠ []) :
    validationResult (js "email") raw =
      if emailRegex.test (trim raw) = true then ⟨true, js ""⟩
      else ⟨false, js "Please enter a valid email address."⟩ := by
  by_cases h : emailRegex.test (trim raw) = true <;>
    simp [validationResult, hne, h]

/-- C3. For every raw email value whose trimmed form is non-empty and contains no `@`, or
contains a white-space character, or has an `@` with no `.` after it, `validateField`
computes `isValid = false` with the message `Please enter a valid email address.`; and the
value `a@b.co` is valid. -/
theorem C3_invalid_format :
    (∀ raw : JSString, trim raw ≠ [] →
      (0x40 ∉ trim raw ∨ (∃ c ∈ trim raw, isWhiteSpace c = true) ∨
        (∃ pre post, trim raw = pre ++ 0x40 :: post ∧ 0x2E ∉ post)) →
      validationResult (js "email") raw =
        ⟨false, js "Please enter a valid email address."⟩) ∧
    validationResult (js "email") (js "a@b.co") = ⟨true, js ""⟩ := by
  refine ⟨?_, by decide⟩
  intro raw hne hbad
  rw [validationResult_email raw hne]
  have hrej : ¬ emailRegex.test (trim raw) = true := by
    intro hacc
    obtain ⟨hws, hcount, hdot⟩ := emailRegex_accepts_only _ hacc
    rcases hbad with hno | ⟨c, hc, hcw⟩ | ⟨pre, post, hsplit, hnodot⟩
    · have := List.count_eq_zero_of_not_mem hno
      omega
    · rw [hws c hc] at hcw; cases hcw
    · exact hnodot (hdot pre post hsplit)
  simp [hrej]

theorem C3_invalid_format_witness :
    validationResult (js "email") (js " bad ") =
        ⟨false, js "Please enter a valid email address."⟩ ∧
      validationResult (js "email") (js "a b@c.de") =
        ⟨false, js "Please enter a valid email address."⟩ ∧
      validationResult (js "email") (js "a@bc") =
        ⟨false, js "Please enter a valid email address."⟩ :=
  ⟨C3_invalid_format.1 (js " bad ") (by decide) (Or.inl (by decide)),
   C3_invalid_format.1 (js "a b@c.de") (by decide)
     (Or.inr (Or.inl ⟨0x20, by decide, by decide⟩)),
   C3_invalid_format.1 (js "a@bc") (by decide)
     (Or.inr (Or.inr ⟨js "a", js "bc", by decide, by decide⟩))⟩

/-- C4, as stated, fails: the value `a@.co` has no white space, exactly one `@` and a `.`
after the `@`, and `validateField` reports it invalid. -/
theorem C4_counterexample :
    trim (js "a@.co") ≠ [] ∧ specEmailPattern (trim (js "a@.co")) = true ∧
      validationResult (js "email") (js "a@.co") =
        ⟨false, js "Please enter a valid email address."⟩ := by
  decide

/-- C4, amended. For every raw email value whose trimmed form is non-empty, `validateField`
reports the field valid exactly when the trimmed value contains no white space, contains
exactly one `@`, which is not its first code unit, and contains after the `@` a `.` that
neither follows the `@` immediately nor ends the value; every other value fails with the
message `Please enter a valid email address.`. -/
theorem C4_email_pattern (raw : JSString) (hne : trim raw ≠ []) :
    ((validationResult (js "email") raw).valid = true ↔
      ((∀ x ∈ trim raw, isWhiteSpace x = false) ∧ (trim raw).count 0x40 = 1 ∧
        ∃ a b c : JSString, trim raw = a ++ 0x40 :: (b ++ 0x2E :: c) ∧
          a ≠ [] ∧ b ≠ [] ∧ c ≠ [])) ∧
    ((validationResult (js "email") raw).valid = false →
      validationResult (js "email") raw =
        ⟨false, js "Please enter a valid email address."⟩) := by
  rw [validationResult_email raw hne]
  by_cases hacc : emailRegex.test (trim raw) = true
  · simp only [hacc, ↓reduceIte, true_iff, Bool.true_eq_false, false_implies, and_true]
    obtain ⟨hws, hcount, -⟩ := emailRegex_accepts_only _ hacc
    obtain ⟨a, b, c, ht, ha, hb, hc, -⟩ := (emailRegex_test_iff _).mp hacc
    exact ⟨hws, hcount, a, b, c, ht, ha, hb, hc⟩
  · simp only [hacc, ↓reduceIte, Bool.false_eq_true, false_iff, implies_true, and_true]
    rintro ⟨hws, hcount, a, b, c, ht, ha, hb, hc⟩
    apply hacc
    rw [emailRegex_test_iff]
    rw [ht] at hws hcount
    have hz : a.count 0x40 = 0 ∧ b.count 0x40 = 0 ∧ c.count 0x40 = 0 := by
      simp [List.count_append, List.count_cons] at hcount
      omega
    have key : ∀ l : JSString, l.count 0x40 = 0 →
        (∀ x ∈ l, x ∈ a ++ 0x40 :: (b ++ 0x2E :: c)) → ∀ x ∈ l, notSpaceOrAt x = true := by
      intro l hl hsub x hx
      rw [notSpaceOrAt_iff]
      refine ⟨hws x (hsub x hx), ?_⟩
      rintro rfl
      exact (List.count_eq_zero.mp hl) hx
    refine ⟨a, b, c, ht, ha, hb, hc, key a hz.1 ?_, key b hz.2.1 ?_, key c hz.2.2 ?_⟩
    · intro x hx; simp [hx]
    · intro x hx; simp [hx]
    · intro x hx; simp [hx]

theorem C4_email_pattern_witness :
    trim (js " a@b.co ") ≠ [] ∧ (validationResult (js "email") (js " a@b.co ")).valid = true :=
  ⟨by decide,
   (C4_email_pattern (js " a@b.co ") (by decide)).1.mpr
     ⟨by decide, by decide, js "a", js "b", js "co", by decide, by decide, by decide,
       by decide⟩⟩

/-! ## Class lists and the rendering of one field -/

theorem ClassList.mem_add (l : ClassList) (tok t : JSString) :
    t ∈ ClassList.add l tok ↔ t ∈ l ∨ t = tok := by
  unfold ClassList.add
  split
  · constructor
    · exact Or.inl
    · rintro (h | rfl) <;> assumption
  · simp

theorem ClassList.mem_remove (l : ClassList) (tok t : JSString) :
    t ∈ ClassList.remove l tok ↔ t ∈ l ∧ t ≠ tok := by
  simp [ClassList.remove]

/-- The loop of `validateForm` unrolled: each element is replaced by the result of its own
`validateField`, and the returned flag is the conjunction of the four results. -/
theorem validationResult_message_ne_nil_iff (fieldName raw : JSString) :
    (validationResult fieldName raw).message ≠ [] ↔
      (validationResult fieldName raw).valid = false := by
  have hreq : getFieldLabel fieldName ++ js " is required." ≠ [] := by
    intro h
    exact absurd (List.append_eq_nil.mp h).2 (by decide)
  have e0 : js "" = [] := by decide
  have e1 : js "Please enter a valid email address." ≠ [] := by decide
  have e2 : js "Name must be at least 2 characters long." ≠ [] := by decide
  have e3 : js "Subject must be at least 5 characters long." ≠ [] := by decide
  have e4 : js "Message must be at least 10 characters long." ≠ [] := by decide
  unfold validationResult
  simp only []
  split_ifs <;> simp [hreq, e0, e1, e2, e3, e4]

/-- The rendering done by `validateField`, in terms of the computed outcome. -/
theorem validateField_fst (field : Field) :
    (validateField field).1 =
      if (validationResult field.name field.value).valid = true then
        showFieldSuccess (clearFieldError field)
      else
        showFieldError (clearFieldError field) (validationResult field.name field.value).message := by
  unfold validateField
  by_cases h : (validationResult field.name field.value).valid = true <;> simp [h]

/-! ## Reading and writing the page -/

theorem Handler.getElementById_name (h : Handler) (id : FieldId) :
    (h.getElementById id).name = (h.control id).name := rfl

theorem Handler.getElementById_value (h : Handler) (id : FieldId) :
    (h.getElementById id).value = (h.control id).value := rfl

theorem Handler.getElementById_defaultValue (h : Handler) (id : FieldId) :
    (h.getElementById id).defaultValue = (h.control id).defaultValue := rfl

theorem Handler.getElementById_classList (h : Handler) (id : FieldId) :
    (h.getElementById id).classList = (h.control id).classList := rfl

theorem Handler.getElementById_errorElement (h : Handler) (id : FieldId) :
    (h.getElementById id).errorElement =
      (h.control id).errorRef.bind fun i => h.errorElements[i]? := rfl

theorem Handler.control_setElement (h : Handler) (id id1 : FieldId) (f : Field) :
    (h.setElement id f).control id1 =
      if id1 = id then (h.control id).update f else h.control id1 := by
  cases id <;> cases id1 <;> simp [Handler.setElement, Handler.control]

theorem Handler.errorElements_setElement (h : Handler) (id : FieldId) (f : Field) :
    (h.setElement id f).errorElements =
      match (h.control id).errorRef, f.errorElement with
      | some i, some e => h.errorElements.set i e
      | _, _ => h.errorElements := by
  cases id <;> rfl

theorem Handler.setElement_frame (h : Handler) (id : FieldId) (f : Field) :
    (h.setElement id f).isSubmitting = h.isSubmitting ∧
      (h.setElement id f).formMessage = h.formMessage ∧
      (h.setElement id f).submitButton = h.submitButton ∧
      (h.setElement id f).hideTimers = h.hideTimers ∧
      (h.setElement id f).console = h.console := by
  cases id <;> exact ⟨rfl, rfl, rfl, rfl, rfl⟩

theorem Handler.errorRef_setElement (h : Handler) (id id1 : FieldId) (f : Field) :
    ((h.setElement id f).control id1).errorRef = (h.control id1).errorRef := by
  rw [Handler.control_setElement]
  split
  · next he => rw [he]; rfl
  · rfl

/-- The attributes of the controls after one element was written. -/
theorem Handler.getElementById_setElement_attrs (h : Handler) (id id1 : FieldId) (f : Field) :
    ((h.setElement id f).getElementById id1).name =
        (if id1 = id then f.name else (h.getElementById id1).name) ∧
      ((h.setElement id f).getElementById id1).value =
        (if id1 = id then f.value else (h.getElementById id1).value) ∧
      ((h.setElement id f).getElementById id1).defaultValue =
        (if id1 = id then f.defaultValue else (h.getElementById id1).defaultValue) ∧
      ((h.setElement id f).getElementById id1).classList =
        (if id1 = id then f.classList else (h.getElementById id1).classList) := by
  simp only [Handler.getElementById_name, Handler.getElementById_value,
    Handler.getElementById_defaultValue, Handler.getElementById_classList,
    Handler.control_setElement]
  by_cases he : id1 = id <;> simp [he, Control.update]

/-- A control whose error element is rewritten in place is then seen as it was written. -/
theorem Handler.getElementById_setElement_self (h : Handler) (id : FieldId) (f : Field)
    (g : ErrorElement → ErrorElement)
    (hf : f.errorElement = (h.getElementById id).errorElement.map g) :
    (h.setElement id f).getElementById id = f := by
  obtain ⟨a1, a2, a3, a4⟩ := Handler.getElementById_setElement_attrs h id id f
  simp only [↓reduceIte] at a1 a2 a3 a4
  have a5 : ((h.setElement id f).getElementById id).errorElement = f.errorElement := by
    rw [Handler.getElementById_errorElement, Handler.errorRef_setElement,
      Handler.errorElements_setElement]
    rw [Handler.getElementById_errorElement] at hf
    cases hr : (h.control id).errorRef with
    | none => simp [hr] at hf ⊢; exact hf.symm
    | some i =>
      simp only [hr, Option.some_bind] at hf ⊢
      cases he : h.errorElements[i]? with
      | none => simp [he] at hf; simp [hf, he]
      | some e0 =>
        simp only [he, Option.map_some'] at hf
        have hlt : i < h.errorElements.length := by
          by_contra hge
          rw [List.getElem?_eq_none (by omega)] at he
          cases he
        simp [hf, List.getElem?_set_self hlt]
  cases hv : (h.setElement id f).getElementById id with
  | mk n v d c e =>
    simp only [hv] at a1 a2 a3 a4 a5
    subst a1 a2 a3 a4 a5
    rfl

/-- Writing one element leaves alone the controls that refer to another error element. -/
theorem Handler.getElementById_setElement_other (h : Handler) (id id1 : FieldId) (f : Field)
    (hne : id1 ≠ id) (href : (h.control id1).errorRef ≠ (h.control id).errorRef) :
    (h.setElement id f).getElementById id1 = h.getElementById id1 := by
  obtain ⟨a1, a2, a3, a4⟩ := Handler.getElementById_setElement_attrs h id id1 f
  simp only [hne, ↓reduceIte] at a1 a2 a3 a4
  have a5 : ((h.setElement id f).getElementById id1).errorElement =
      (h.getElementById id1).errorElement := by
    simp only [Handler.getElementById_errorElement, Handler.errorRef_setElement,
      Handler.errorElements_setElement]
    cases hr1 : (h.control id1).errorRef with
    | none => rfl
    | some j =>
      simp only [Option.some_bind]
      cases hr : (h.control id).errorRef with
      | none => rfl
      | some i =>
        have hij : i ≠ j := by
          rintro rfl
          exact href (by rw [hr1, hr])
        cases f.errorElement with
        | none => rfl
        | some e => simp [List.getElem?_set_ne hij]
  cases hv : (h.setElement id f).getElementById id1 with
  | mk n v d c e =>
    cases hw : h.getElementById id1 with
    | mk n1 v1 d1 c1 e1 =>
      simp only [hv, hw] at a1 a2 a3 a4 a5
      subst a1 a2 a3 a4 a5
      rfl

/-- A property of error elements that holds of what is written and of what a control saw
before holds of what the control sees afterwards. -/
theorem Handler.getElementById_setElement_pred (P : ErrorElement → Prop) (h : Handler)
    (id id1 : FieldId) (f : Field) (hf : ∀ e ∈ f.errorElement, P e)
    (hv : ∀ e ∈ (h.getElementById id1).errorElement, P e) :
    ∀ e ∈ ((h.setElement id f).getElementById id1).errorElement, P e := by
  simp only [Handler.getElementById_errorElement, Handler.errorRef_setElement,
    Handler.errorElements_setElement] at hv ⊢
  cases hr1 : (h.control id1).errorRef with
  | none => simp
  | some j =>
    simp only [hr1, Option.some_bind] at hv ⊢
    cases hr : (h.control id).errorRef with
    | none => exact hv
    | some i =>
      cases hfe : f.errorElement with
      | none => exact hv
      | some e0 =>
        simp only []
        rw [List.getElem?_set]
        split
        · split
          · intro e he
            simp only [Option.mem_def, Option.some.injEq] at he
            subst he
            exact hf e0 (by simp [hfe])
          · simp
        · exact hv

/-! ## The loops of `validateForm` and `resetForm` -/

theorem validateLoop_cons (id : FieldId) (rest : List FieldId) (acc : Handler × Bool) :
    validateLoop (id :: rest) acc = validateLoop rest (validateStep acc id) := rfl

theorem validateStep_fst (acc : Handler × Bool) (id : FieldId) :
    (validateStep acc id).1 = acc.1.setElement id (validateField (acc.1.getElementById id)).1 :=
  rfl

theorem validateStep_snd (acc : Handler × Bool) (id : FieldId) :
    (validateStep acc id).2 = ((validateField (acc.1.getElementById id)).2 && acc.2) := by
  cases hv : (validateField (acc.1.getElementById id)).2 <;> simp [validateStep, hv]

theorem validateForm_eq_loop (h : Handler) :
    validateForm h =
      validateLoop [FieldId.name, FieldId.email, FieldId.subject, FieldId.message] (h, true) := rfl

theorem resetLoop_cons (id : FieldId) (rest : List FieldId) (h : Handler) :
    resetLoop (id :: rest) h = resetLoop rest (h.setElement id (resetField (h.getElementById id))) :=
  rfl

theorem resetForm_eq_loop (h : Handler) :
    resetForm h =
      resetLoop [FieldId.name, FieldId.email, FieldId.subject, FieldId.message] h := rfl

/-! ## One field at a time -/

theorem validateField_attrs (field : Field) :
    (validateField field).1.name = field.name ∧ (validateField field).1.value = field.value ∧
      (validateField field).1.defaultValue = field.defaultValue := by
  rw [validateField_fst]
  split <;> exact ⟨rfl, rfl, rfl⟩

theorem validateField_errorElement (field : Field) :
    ∃ g : ErrorElement → ErrorElement,
      (validateField field).1.errorElement = field.errorElement.map g := by
  rw [validateField_fst]
  split
  · exact ⟨fun e => { textContent := js "", classList := ClassList.add e.classList (js "hidden") },
      rfl⟩
  · refine ⟨fun e =>
      { textContent := (validationResult field.name field.value).message,
        classList := ClassList.remove (ClassList.add e.classList (js "hidden")) (js "hidden") },
      ?_⟩
    simp only [showFieldError, clearFieldError, Option.map_map]
    rfl

theorem validateField_classList_congr (f g : Field) (hn : f.name = g.name)
    (hv : f.value = g.value) (hc : f.classList = g.classList) :
    (validateField f).1.classList = (validateField g).1.classList := by
  rw [validateField_fst, validateField_fst, hn, hv]
  split <;> simp [showFieldSuccess, showFieldError, clearFieldError, hc]

theorem validateField_snd_congr (f g : Field) (hn : f.name = g.name) (hv : f.value = g.value) :
    (validateField f).2 = (validateField g).2 := by
  rw [validateField_snd, validateField_snd, hn, hv]

/-- The controls and the rest of the handler after the loop of `validateForm` has gone
through a list of ids: names, values, default values and the references to the error
elements are as before, and so is everything but the controls. -/
theorem validateLoop_frame (ids : List FieldId) :
    ∀ (acc : Handler × Bool) (id1 : FieldId),
      (((validateLoop ids acc).1.getElementById id1).name = (acc.1.getElementById id1).name ∧
        ((validateLoop ids acc).1.getElementById id1).value =
          (acc.1.getElementById id1).value ∧
        ((validateLoop ids acc).1.getElementById id1).defaultValue =
          (acc.1.getElementById id1).defaultValue ∧
        ((validateLoop ids acc).1.control id1).errorRef = (acc.1.control id1).errorRef) ∧
      ((validateLoop ids acc).1.isSubmitting = acc.1.isSubmitting ∧
        (validateLoop ids acc).1.formMessage = acc.1.formMessage ∧
        (validateLoop ids acc).1.submitButton = acc.1.submitButton ∧
        (validateLoop ids acc).1.hideTimers = acc.1.hideTimers ∧
        (validateLoop ids acc).1.console = acc.1.console) := by
  induction ids with
  | nil => intro acc id1; exact ⟨⟨rfl, rfl, rfl, rfl⟩, rfl, rfl, rfl, rfl, rfl⟩
  | cons id rest ih =>
    intro acc id1
    rw [validateLoop_cons]
    obtain ⟨⟨i1, i2, i3, i4⟩, j1, j2, j3, j4, j5⟩ := ih (validateStep acc id) id1
    obtain ⟨a1, a2, a3, -⟩ := Handler.getElementById_setElement_attrs acc.1 id id1
      (validateField (acc.1.getElementById id)).1
    obtain ⟨v1, v2, v3⟩ := validateField_attrs (acc.1.getElementById id)
    obtain ⟨f1, f2, f3, f4, f5⟩ := Handler.setElement_frame acc.1 id
      (validateField (acc.1.getElementById id)).1
    have a4 := Handler.errorRef_setElement acc.1 id id1 (validateField (acc.1.getElementById id)).1
    rw [validateStep_fst] at i1 i2 i3 i4 j1 j2 j3 j4 j5
    refine ⟨⟨?_, ?_, ?_, ?_⟩, ?_, ?_, ?_, ?_, ?_⟩
    · rw [i1, a1]; split
      · next he => rw [he, v1]
      · rfl
    · rw [i2, a2]; split
      · next he => rw [he, v2]
      · rfl
    · rw [i3, a3]; split
      · next he => rw [he, v3]
      · rfl
    · rw [i4, a4]
    · rw [j1, f1]
    · rw [j2, f2]
    · rw [j3, f3]
    · rw [j4, f4]
    · rw [j5, f5]

/-- The flag returned by the loop of `validateForm`. -/
theorem validateLoop_snd (ids : List FieldId) :
    ∀ acc : Handler × Bool, (validateLoop ids acc).2 = true ↔
      acc.2 = true ∧ ∀ id ∈ ids, (validateField (acc.1.getElementById id)).2 = true := by
  induction ids with
  | nil => intro acc; simp [validateLoop]
  | cons id rest ih =>
    intro acc
    rw [validateLoop_cons, ih, validateStep_snd]
    have hsame : ∀ id1, (validateField ((validateStep acc id).1.getElementById id1)).2 =
        (validateField (acc.1.getElementById id1)).2 := by
      intro id1
      obtain ⟨⟨i1, i2, -, -⟩, -⟩ := validateLoop_frame [id] acc id1
      exact validateField_snd_congr _ _ i1 i2
    simp only [hsame, Bool.and_eq_true, List.mem_cons, forall_eq_or_imp]
    tauto

/-- The classes of a control that the loop of `validateForm` does not visit. -/
theorem validateLoop_classList_of_not_mem (ids : List FieldId) :
    ∀ (acc : Handler × Bool) (id1 : FieldId), id1 ∉ ids →
      ((validateLoop ids acc).1.getElementById id1).classList =
        (acc.1.getElementById id1).classList := by
  induction ids with
  | nil => intro acc id1 _; rfl
  | cons id rest ih =>
    intro acc id1 hnot
    simp only [List.mem_cons, not_or] at hnot
    rw [validateLoop_cons, ih _ _ hnot.2, validateStep_fst,
      (Handler.getElementById_setElement_attrs acc.1 id id1 _).2.2.2, if_neg hnot.1]

/-- The classes of a control that the loop of `validateForm` visits once are those that its
own `validateField` gives it. -/
theorem validateLoop_classList_of_mem (ids : List FieldId) :
    ∀ (acc : Handler × Bool) (id1 : FieldId), ids.Nodup → id1 ∈ ids →
      ((validateLoop ids acc).1.getElementById id1).classList =
        (validateField (acc.1.getElementById id1)).1.classList := by
  induction ids with
  | nil => intro acc id1 _ hmem; cases hmem
  | cons id rest ih =>
    intro acc id1 hnd hmem
    rw [List.nodup_cons] at hnd
    rw [validateLoop_cons]
    by_cases he : id1 = id
    · subst he
      rw [validateLoop_classList_of_not_mem rest _ _ hnd.1, validateStep_fst,
        (Handler.getElementById_setElement_attrs acc.1 id1 id1 _).2.2.2, if_pos rfl]
    · have hrest : id1 ∈ rest := by
        rcases List.mem_cons.mp hmem with h1 | h1
        · exact absurd h1 he
        · exact h1
      rw [ih _ _ hnd.2 hrest]
      obtain ⟨a1, a2, -, a4⟩ := Handler.getElementById_setElement_attrs acc.1 id id1
        (validateField (acc.1.getElementById id)).1
      rw [if_neg he] at a1 a2 a4
      exact validateField_classList_congr _ _ a1 a2 a4

/-- Controls that the loop of `validateForm` does not visit, and whose error element no
visited control refers to, are left as they were. -/
theorem validateLoop_getElementById_of_not_mem (ids : List FieldId) :
    ∀ (acc : Handler × Bool) (id1 : FieldId), id1 ∉ ids →
      (∀ id ∈ ids, (acc.1.control id1).errorRef ≠ (acc.1.control id).errorRef) →
      (validateLoop ids acc).1.getElementById id1 = acc.1.getElementById id1 := by
  induction ids with
  | nil => intro acc id1 _ _; rfl
  | cons id rest ih =>
    intro acc id1 hnot href
    simp only [List.mem_cons, not_or] at hnot
    rw [validateLoop_cons, ih _ _ hnot.2, validateStep_fst,
      Handler.getElementById_setElement_other acc.1 id id1 _ hnot.1
        (href id (List.mem_cons_self id rest))]
    intro id2 hid2
    rw [validateStep_fst, Handler.errorRef_setElement, Handler.errorRef_setElement]
    exact href id2 (List.mem_cons_of_mem id hid2)

/-- A control that the loop of `validateForm` visits once, and whose error element no other
visited control refers to, ends as its own `validateField` leaves it. -/
theorem validateLoop_getElementById_of_mem (ids : List FieldId) :
    ∀ (acc : Handler × Bool) (id1 : FieldId), ids.Nodup → id1 ∈ ids →
      (∀ id ∈ ids, id ≠ id1 → (acc.1.control id1).errorRef ≠ (acc.1.control id).errorRef) →
      (validateLoop ids acc).1.getElementById id1 =
        (validateField (acc.1.getElementById id1)).1 := by
  induction ids with
  | nil => intro acc id1 _ hmem; cases hmem
  | cons id rest ih =>
    intro acc id1 hnd hmem href
    rw [List.nodup_cons] at hnd
    rw [validateLoop_cons]
    by_cases he : id1 = id
    · subst he
      obtain ⟨g, hg⟩ := validateField_errorElement (acc.1.getElementById id1)
      rw [validateLoop_getElementById_of_not_mem rest _ _ hnd.1, validateStep_fst,
        Handler.getElementById_setElement_self acc.1 id1 _ g hg]
      intro id2 hid2
      rw [validateStep_fst, Handler.errorRef_setElement, Handler.errorRef_setElement]
      refine href id2 (List.mem_cons_of_mem _ hid2) ?_
      rintro rfl
      exact hnd.1 hid2
    · have hrest : id1 ∈ rest := by
        rcases List.mem_cons.mp hmem with h1 | h1
        · exact absurd h1 he
        · exact h1
      rw [ih _ _ hnd.2 hrest, validateStep_fst,
        Handler.getElementById_setElement_other acc.1 id id1 _ he
          (href id (List.mem_cons_self id rest) (fun h1 => he h1.symm))]
      intro id2 hid2 hne
      rw [validateStep_fst, Handler.errorRef_setElement, Handler.errorRef_setElement]
      exact href id2 (List.mem_cons_of_mem id hid2) hne

/-! ## Resetting the form -/

theorem resetField_spec (field : Field) : ResetState field.defaultValue (resetField field) := by
  refine ⟨rfl, rfl, ?_, ?_, ?_⟩
  · simp [resetField, ClassList.mem_remove]
  · simp [resetField, ClassList.mem_remove]
  · intro e he
    simp only [resetField, Option.mem_def, Option.map_eq_some'] at he
    obtain ⟨e0, -, rfl⟩ := he
    simp [ClassList.mem_add]

/-- One turn of the loop of `resetForm` resets the control it visits. -/
theorem resetStep_self (h : Handler) (id : FieldId) :
    ResetState (h.getElementById id).defaultValue
      ((h.setElement id (resetField (h.getElementById id))).getElementById id) := by
  rw [Handler.getElementById_setElement_self h id _
    (fun e => { e with classList := ClassList.add e.classList (js "hidden") }) rfl]
  exact resetField_spec _

/-- One turn of the loop of `resetForm` keeps every control that is reset as it is. -/
theorem resetStep_keeps (h : Handler) (id id1 : FieldId) (d : JSString)
    (hgood : ResetState d (h.getElementById id1)) :
    ResetState d ((h.setElement id (resetField (h.getElementById id))).getElementById id1) := by
  by_cases he : id1 = id
  · subst he
    have := resetStep_self h id1
    rw [hgood.2.1] at this
    exact this
  · obtain ⟨-, a2, a3, a4⟩ := Handler.getElementById_setElement_attrs h id id1
      (resetField (h.getElementById id))
    rw [if_neg he] at a2 a3 a4
    obtain ⟨g1, g2, g3, g4, g5⟩ := hgood
    refine ⟨by rw [a2, g1], by rw [a3, g2], by rw [a4]; exact g3, by rw [a4]; exact g4, ?_⟩
    exact Handler.getElementById_setElement_pred (fun e => js "hidden" ∈ e.classList) h id id1 _
      (resetField_spec (h.getElementById id)).2.2.2.2 g5

theorem resetLoop_keeps (ids : List FieldId) :
    ∀ (h : Handler) (id1 : FieldId) (d : JSString), ResetState d (h.getElementById id1) →
      ResetState d ((resetLoop ids h).getElementById id1) := by
  induction ids with
  | nil => intro h id1 d hgood; exact hgood
  | cons id rest ih =>
    intro h id1 d hgood
    rw [resetLoop_cons]
    exact ih _ id1 d (resetStep_keeps h id id1 d hgood)

theorem resetStep_defaultValue (h : Handler) (id id1 : FieldId) :
    ((h.setElement id (resetField (h.getElementById id))).getElementById id1).defaultValue =
      (h.getElementById id1).defaultValue := by
  rw [(Handler.getElementById_setElement_attrs h id id1 _).2.2.1]
  split
  · next he => rw [he]; rfl
  · rfl

/-- Every control that the loop of `resetForm` visits ends reset to its default value. -/
theorem resetLoop_of_mem (ids : List FieldId) :
    ∀ (h : Handler) (id1 : FieldId), id1 ∈ ids →
      ResetState (h.getElementById id1).defaultValue ((resetLoop ids h).getElementById id1) := by
  induction ids with
  | nil => intro h id1 hmem; cases hmem
  | cons id rest ih =>
    intro h id1 hmem
    rw [resetLoop_cons]
    by_cases he : id1 = id
    · subst he
      exact resetLoop_keeps rest _ id1 _ (resetStep_self h id1)
    · have hrest : id1 ∈ rest := by
        rcases List.mem_cons.mp hmem with h1 | h1
        · exact absurd h1 he
        · exact h1
      have := ih (h.setElement id (resetField (h.getElementById id))) id1 hrest
      rw [resetStep_defaultValue] at this
      exact this

theorem resetLoop_frame (ids : List FieldId) :
    ∀ h : Handler, (resetLoop ids h).isSubmitting = h.isSubmitting ∧
      (resetLoop ids h).formMessage = h.formMessage ∧
      (resetLoop ids h).submitButton = h.submitButton ∧
      (resetLoop ids h).hideTimers = h.hideTimers ∧
      (resetLoop ids h).console = h.console := by
  induction ids with
  | nil => intro h; exact ⟨rfl, rfl, rfl, rfl, rfl⟩
  | cons id rest ih =>
    intro h
    rw [resetLoop_cons]
    obtain ⟨j1, j2, j3, j4, j5⟩ := ih (h.setElement id (resetField (h.getElementById id)))
    obtain ⟨f1, f2, f3, f4, f5⟩ := Handler.setElement_frame h id
      (resetField (h.getElementById id))
    exact ⟨by rw [j1, f1], by rw [j2, f2], by rw [j3, f3], by rw [j4, f4], by rw [j5, f5]⟩

theorem resetForm_spec (h : Handler) (id : FieldId) :
    ResetState (h.getElementById id).defaultValue ((resetForm h).getElementById id) := by
  rw [resetForm_eq_loop]
  exact resetLoop_of_mem _ h id (by cases id <;> simp)

theorem resetForm_frame (h : Handler) :
    (resetForm h).isSubmitting = h.isSubmitting ∧
      (resetForm h).formMessage = h.formMessage ∧
      (resetForm h).submitButton = h.submitButton ∧
      (resetForm h).hideTimers = h.hideTimers ∧
      (resetForm h).console = h.console := by
  rw [resetForm_eq_loop]
  exact resetLoop_frame _ h

/-! ## Form validation -/

theorem validateForm_true_iff (h : Handler) :
    (validateForm h).2 = true ↔
      ∀ id : FieldId, (validateField (h.getElementById id)).2 = true := by
  rw [validateForm_eq_loop, validateLoop_snd]
  simp only [true_and]
  constructor
  · intro hall id
    exact hall id (by cases id <;> simp)
  · intro hall id _
    exact hall id

theorem validateForm_frame (h : Handler) :
    (validateForm h).1.isSubmitting = h.isSubmitting ∧
      (validateForm h).1.formMessage = h.formMessage ∧
      (validateForm h).1.submitButton = h.submitButton ∧
      (validateForm h).1.hideTimers = h.hideTimers ∧
      (validateForm h).1.console = h.console ∧
      ∀ id, ((validateForm h).1.getElementById id).value = (h.getElementById id).value ∧
        ((validateForm h).1.getElementById id).name = (h.getElementById id).name := by
  rw [validateForm_eq_loop]
  obtain ⟨-, j1, j2, j3, j4, j5⟩ := validateLoop_frame
    [FieldId.name, FieldId.email, FieldId.subject, FieldId.message] (h, true) FieldId.name
  refine ⟨j1, j2, j3, j4, j5, fun id => ?_⟩
  obtain ⟨⟨i1, i2, -, -⟩, -⟩ := validateLoop_frame
    [FieldId.name, FieldId.email, FieldId.subject, FieldId.message] (h, true) id
  exact ⟨i2, i1⟩

theorem validateForm_defaultValue (h : Handler) (id : FieldId) :
    ((validateForm h).1.getElementById id).defaultValue = (h.getElementById id).defaultValue := by
  rw [validateForm_eq_loop]
  exact (validateLoop_frame _ (h, true) id).1.2.2.1

theorem validateForm_errorRef (h : Handler) (id : FieldId) :
    ((validateForm h).1.control id).errorRef = (h.control id).errorRef := by
  rw [validateForm_eq_loop]
  exact (validateLoop_frame _ (h, true) id).1.2.2.2

/-- After `validateForm` every control carries the classes that its own `validateField`
gives it. -/
theorem validateForm_classList (h : Handler) (id : FieldId) :
    ((validateForm h).1.getElementById id).classList =
      (validateField (h.getElementById id)).1.classList := by
  rw [validateForm_eq_loop]
  exact validateLoop_classList_of_mem _ (h, true) id (by decide) (by cases id <;> simp)

/-- After `validateForm` a control whose error element no other control refers to is as its
own `validateField` leaves it. -/
theorem validateForm_getElementById_of_unshared (h : Handler) (id : FieldId)
    (hown : ∀ id1, id1 ≠ id → ∀ i, (h.control id).errorRef = some i →
      (h.control id1).errorRef ≠ some i) :
    (validateForm h).1.getElementById id = (validateField (h.getElementById id)).1 := by
  cases hr : (h.control id).errorRef with
  | some i =>
    rw [validateForm_eq_loop]
    refine validateLoop_getElementById_of_mem _ (h, true) id (by decide)
      (by cases id <;> simp) ?_
    intro id1 _ hne
    show (h.control id).errorRef ≠ (h.control id1).errorRef
    rw [hr]
    exact fun heq => hown id1 hne i hr heq.symm
  | none =>
    have c := validateForm_classList h id
    obtain ⟨-, -, -, -, -, f6⟩ := validateForm_frame h
    have d := validateForm_defaultValue h id
    obtain ⟨v1, v2, v3⟩ := validateField_attrs (h.getElementById id)
    obtain ⟨g, hg⟩ := validateField_errorElement (h.getElementById id)
    have e1 : ((validateForm h).1.getElementById id).errorElement = none := by
      rw [Handler.getElementById_errorElement, validateForm_errorRef, hr]
      rfl
    have e2 : (validateField (h.getElementById id)).1.errorElement = none := by
      rw [hg, Handler.getElementById_errorElement, hr]
      rfl
    cases hv : (validateForm h).1.getElementById id with
    | mk n1 w1 d1 c1 x1 =>
      cases hw : (validateField (h.getElementById id)).1 with
      | mk n2 w2 d2 c2 x2 =>
        simp only [hv, hw] at c d e1 e2 v1 v2 v3
        have a := f6 id
        simp only [hv] at a
        rw [c, d, e1, e2, a.1, a.2, ← v1, ← v2, ← v3]

/-- C5. For every state of the four fields, `validateForm` returns `true` exactly when
`validateField` reports each of the four fields valid; on the fields
`name: "Al", email: "a@b.co", subject: "Hello there", message: "This is a message"` it
returns `true`. -/
theorem C5_validateForm_iff_all_valid :
    (∀ h : Handler, (validateForm h).2 = true ↔
      ∀ id : FieldId, (validateField (h.getElementById id)).2 = true) ∧
    (validateForm (samplePage "Al" "a@b.co" "Hello there" "This is a message")).2 = true :=
  ⟨fun h => validateForm_true_iff h, by decide⟩

/-- C6, as stated, fails on a page whose four controls are children of one parent with a
single `.error-message` element. With `name: ""` and the other three fields valid, the
`name` field is invalid and marked `error`, yet after `validateForm` its error element is
empty and hidden, cleared when the later fields were validated. With
`name: "", email: "bad", subject: "hi", message: "short"` the error element seen from the
`name` field shows the message of the `message` field, not `Name is required.`. -/
theorem C6_counterexample :
    ((validateField ((sharedParentPage "" "a@b.co" "Hello there"
          "This is a message").getElementById FieldId.name)).2 = false ∧
      js "error" ∈ ((validateForm (sharedParentPage "" "a@b.co" "Hello there"
          "This is a message")).1.getElementById FieldId.name).classList ∧
      ((validateForm (sharedParentPage "" "a@b.co" "Hello there"
          "This is a message")).1.getElementById FieldId.name).errorElement =
        some { textContent := [], classList := [js "error-message", js "hidden"] }) ∧
    (validationResult (js "name") (js "") = ⟨false, js "Name is required."⟩ ∧
      ((validateForm (sharedParentPage "" "bad" "hi" "short")).1.getElementById
          FieldId.name).errorElement =
        some { textContent := js "Message must be at least 10 characters long.",
               classList := [js "error-message"] }) := by
  decide

/-- C6, amended. `validateForm` does not short-circuit: for every page whose four controls
bear the field names, and every field, after `validateForm` returns the control carries the
classes that its own `validateField` gives it, whatever the validity of the other fields:
`error` and not `success` exactly when the field is invalid, `success` and not `error`
exactly when it is valid, the computed message being non-empty exactly when it is invalid.
When no other control shares the error element of the field, the field is wholly as its own
`validateField` leaves it: its error element (where the page has one) shows the computed
message and is hidden exactly when the field is valid. On a page where every field has an
error element of its own, the fields
`name: "", email: "bad", subject: "hi", message: "short"` all end up marked `error`, with
the messages of kinds Required, InvalidFormat, TooShort, TooShort. -/
theorem C6_validateForm_reports_every_field :
    (∀ (h : Handler) (id : FieldId),
      (h.getElementById id).name ∈ fieldLabels.map Prod.fst →
      (((validateForm h).1.getElementById id).classList =
          (validateField (h.getElementById id)).1.classList ∧
        ((validateForm h).1.getElementById id).value = (h.getElementById id).value) ∧
      ((js "error" ∈ ((validateForm h).1.getElementById id).classList ∧
          js "success" ∉ ((validateForm h).1.getElementById id).classList ∧
          (validationResult (h.getElementById id).name (h.getElementById id).value).message ≠ [])
        ↔ (validateField (h.getElementById id)).2 = false) ∧
      ((js "success" ∈ ((validateForm h).1.getElementById id).classList ∧
          js "error" ∉ ((validateForm h).1.getElementById id).classList ∧
          (validationResult (h.getElementById id).name (h.getElementById id).value).message = [])
        ↔ (validateField (h.getElementById id)).2 = true) ∧
      ((∀ id1, id1 ≠ id → ∀ i, (h.control id).errorRef = some i →
          (h.control id1).errorRef ≠ some i) →
        (validateForm h).1.getElementById id = (validateField (h.getElementById id)).1 ∧
        ∀ e ∈ ((validateForm h).1.getElementById id).errorElement,
          e.textContent =
            (validationResult (h.getElementById id).name (h.getElementById id).value).message ∧
          (js "hidden" ∈ e.classList ↔ (validateField (h.getElementById id)).2 = true))) ∧
    (∀ id : FieldId,
      js "error" ∈ ((validateForm (samplePage "" "bad" "hi" "short")).1.getElementById
        id).classList ∧
      js "success" ∉ ((validateForm (samplePage "" "bad" "hi" "short")).1.getElementById
        id).classList) ∧
    (((validateForm (samplePage "" "bad" "hi" "short")).1.getElementById
          FieldId.name).errorElement.map (fun e => e.textContent) =
        some (js "Name is required.") ∧
      ((validateForm (samplePage "" "bad" "hi" "short")).1.getElementById
          FieldId.email).errorElement.map (fun e => e.textContent) =
        some (js "Please enter a valid email address.") ∧
      ((validateForm (samplePage "" "bad" "hi" "short")).1.getElementById
          FieldId.subject).errorElement.map (fun e => e.textContent) =
        some (js "Subject must be at least 5 characters long.") ∧
      ((validateForm (samplePage "" "bad" "hi" "short")).1.getElementById
          FieldId.message).errorElement.map (fun e => e.textContent) =
        some (js "Message must be at least 10 characters long.")) := by
  have hes : js "error" ≠ js "success" := by decide
  have hse : js "success" ≠ js "error" := by decide
  refine ⟨?_, by intro id; cases id <;> decide, by decide⟩
  intro h id _
  have hval := (validateForm_frame h).2.2.2.2.2 id
  have hcl := validateForm_classList h id
  have hown := validateForm_getElementById_of_unshared h id
  revert hval hcl hown
  generalize (validateForm h).1.getElementById id = after
  generalize h.getElementById id = field
  intro hval hcl hown
  have hmsg := validationResult_message_ne_nil_iff field.name field.value
  refine ⟨⟨hcl, hval.1⟩, ?_⟩
  rw [hcl, validateField_snd, validateField_fst]
  cases hv : (validationResult field.name field.value).valid
  · have hm : (validationResult field.name field.value).message ≠ [] := hmsg.mpr hv
    simp only [Bool.false_eq_true, ↓reduceIte, showFieldError, clearFieldError,
      ClassList.mem_remove, ClassList.mem_add]
    refine ⟨by simp [hes, hm], by simp [hes], ?_⟩
    intro hno
    have heq := hown hno
    rw [validateField_fst] at heq
    simp only [hv, Bool.false_eq_true, ↓reduceIte] at heq
    refine ⟨heq, ?_⟩
    rw [heq]
    simp only [showFieldError, clearFieldError, Option.mem_def, Option.map_eq_some']
    rintro e ⟨_, ⟨e0, _, rfl⟩, rfl⟩
    simp [ClassList.mem_remove]
  · have hm : (validationResult field.name field.value).message = [] := by
      by_contra hc
      rw [hmsg.mp hc] at hv
      cases hv
    simp only [↓reduceIte, showFieldSuccess, clearFieldError,
      ClassList.mem_remove, ClassList.mem_add]
    refine ⟨by simp [hse], by simp [hse, hm], ?_⟩
    intro hno
    have heq := hown hno
    rw [validateField_fst] at heq
    simp only [hv, ↓reduceIte] at heq
    refine ⟨heq, ?_⟩
    rw [heq]
    simp only [showFieldSuccess, clearFieldError, Option.mem_def, Option.map_eq_some']
    rintro e ⟨e0, _, rfl⟩
    have e0' : js "" = [] := by decide
    simp [ClassList.mem_add, hm, e0']

theorem C6_validateForm_reports_every_field_witness :
    js "error" ∈ ((validateForm (sharedParentPage "" "a@b.co" "Hello there"
        "This is a message")).1.getElementById FieldId.name).classList ∧
      js "success" ∈ ((validateForm (sharedParentPage "" "a@b.co" "Hello there"
        "This is a message")).1.getElementById FieldId.email).classList ∧
      (validateForm (samplePage "" "a@b.co" "Hello there"
          "This is a message")).1.getElementById FieldId.name =
        (validateField ((samplePage "" "a@b.co" "Hello there"
          "This is a message").getElementById FieldId.name)).1 :=
  ⟨(((C6_validateForm_reports_every_field.1
        (sharedParentPage "" "a@b.co" "Hello there" "This is a message") FieldId.name
        (by decide)).2.1).mpr (by decide)).1,
   (((C6_validateForm_reports_every_field.1
        (sharedParentPage "" "a@b.co" "Hello there" "This is a message") FieldId.email
        (by decide)).2.2.1).mpr (by decide)).1,
   ((C6_validateForm_reports_every_field.1
        (samplePage "" "a@b.co" "Hello there" "This is a message") FieldId.name
        (by decide)).2.2.2 (by
          intro id1 hne i hi heq
          have hsame : ((samplePage "" "a@b.co" "Hello there" "This is a message").control
              FieldId.name).errorRef =
              ((samplePage "" "a@b.co" "Hello there" "This is a message").control
                id1).errorRef := hi.trans heq.symm
          cases id1
          · exact hne rfl
          · exact absurd hsame (by decide)
          · exact absurd hsame (by decide)
          · exact absurd hsame (by decide))).1⟩

/-! ## Submission -/

theorem validateField_value (field : Field) :
    (validateField field).1.value = field.value ∧ (validateField field).1.name = field.name := by
  rw [validateField_fst]
  split <;> exact ⟨rfl, rfl⟩

theorem showMessage_error (message : JSString) (h : Handler) :
    showMessage message (js "error") h =
      { h with formMessage := h.formMessage.map (errorShown message) } := by
  have e1 : js "error" ≠ js "success" := by decide
  have e2 : ClassList.remove [js "alert", js "alert-" ++ js "error"] (js "hidden") =
      [js "alert", js "alert-error"] := by decide
  obtain ⟨b, f1, f2, f3, f4, es, fm, sb, t, c⟩ := h
  cases fm with
  | none => rfl
  | some m => simp [showMessage, errorShown, e1, e2]

theorem showLoadingState_frame (isLoading : Bool) (h : Handler) :
    (showLoadingState isLoading h).isSubmitting = h.isSubmitting ∧
      (showLoadingState isLoading h).formMessage = h.formMessage ∧
      (showLoadingState isLoading h).hideTimers = h.hideTimers ∧
      (showLoadingState isLoading h).console = h.console ∧
      (showLoadingState isLoading h).submitButton.disabled = isLoading ∧
      ∀ id, (showLoadingState isLoading h).getElementById id = h.getElementById id := by
  unfold showLoadingState
  cases isLoading
  · refine ⟨rfl, rfl, rfl, rfl, ?_, fun id => by cases id <;> rfl⟩
    simp only [Bool.false_eq_true, ↓reduceIte]
    split <;> rfl
  · refine ⟨rfl, rfl, rfl, rfl, ?_, fun id => by cases id <;> rfl⟩
    simp only [↓reduceIte]
    split <;> rfl

theorem handleSubmitStart_of_invalid (now : JSString) (h : Handler)
    (hidle : h.isSubmitting = false) (hinv : (validateForm h).2 = false) :
    handleSubmitStart now h =
      (showMessage (js "Please fix the errors below.") (js "error") (validateForm h).1, none) := by
  simp [handleSubmitStart, hidle, hinv]

theorem handleSubmitStart_of_valid (now : JSString) (h : Handler)
    (hidle : h.isSubmitting = false) (hvalid : (validateForm h).2 = true) :
    handleSubmitStart now h =
      (showLoadingState true { (validateForm h).1 with isSubmitting := true },
        some (getFormData now
          (showLoadingState true { (validateForm h).1 with isSubmitting := true }))) := by
  simp [handleSubmitStart, hidle, hvalid]

/-- C7. While a submission is in flight (`isSubmitting = true`), a call of `handleSubmit`
changes nothing, whatever the form holds: the handler and the page stay as they are (the
flag, the field values and validation marks, the form message, the submit button) and the
transport is not invoked. -/
theorem C7_submit_ignored_while_submitting (now : JSString) (draw : ℚ) (h : Handler)
    (hbusy : h.isSubmitting = true) :
    handleSubmitStart now h = (h, none) ∧ handleSubmit now draw h = h := by
  have hs : handleSubmitStart now h = (h, none) := by simp [handleSubmitStart, hbusy]
  exact ⟨hs, by simp [handleSubmit, hs]⟩

theorem C7_submit_ignored_while_submitting_witness :
    handleSubmitStart (js "2024-01-01T00:00:00.000Z")
        { samplePage "" "bad" "hi" "short" with isSubmitting := true } =
        ({ samplePage "" "bad" "hi" "short" with isSubmitting := true }, none) ∧
      handleSubmit (js "2024-01-01T00:00:00.000Z") 0
        { samplePage "" "bad" "hi" "short" with isSubmitting := true } =
        { samplePage "" "bad" "hi" "short" with isSubmitting := true } :=
  C7_submit_ignored_while_submitting (js "2024-01-01T00:00:00.000Z") 0
    { samplePage "" "bad" "hi" "short" with isSubmitting := true } rfl

/-- C8. When no submission is in flight and `validateForm` returns `false`, `handleSubmit`
shows the one message `Please fix the errors below.` with severity error (the element
`#form-message`, where the page has it, gets the classes `alert alert-error` and that text,
and no timer is set) and stops there: the transport is not invoked and no payload is built,
`isSubmitting` stays `false`, the submit button is left as it was, and the field values are
unchanged. -/
theorem C8_invalid_form_blocks_submission (now : JSString) (draw : ℚ) (h : Handler)
    (hidle : h.isSubmitting = false) (hinv : (validateForm h).2 = false) :
    (handleSubmitStart now h).2 = none ∧
      handleSubmit now draw h = (handleSubmitStart now h).1 ∧
      (handleSubmit now draw h).formMessage =
        h.formMessage.map (errorShown (js "Please fix the errors below.")) ∧
      (handleSubmit now draw h).hideTimers = h.hideTimers ∧
      (handleSubmit now draw h).isSubmitting = false ∧
      (handleSubmit now draw h).submitButton = h.submitButton ∧
      (handleSubmit now draw h).console = h.console ∧
      ∀ id, ((handleSubmit now draw h).getElementById id).value = (h.getElementById id).value := by
  have hs := handleSubmitStart_of_invalid now h hidle hinv
  have hrun : handleSubmit now draw h =
      showMessage (js "Please fix the errors below.") (js "error") (validateForm h).1 := by
    simp [handleSubmit, hs]
  obtain ⟨f1, f2, f3, f4, f5, f6⟩ := validateForm_frame h
  refine ⟨by rw [hs], by rw [hrun, hs], ?_⟩
  rw [hrun, showMessage_error]
  refine ⟨by simp [f2], f4, by simp [f1, hidle], f3, f5, fun id => ?_⟩
  have := (f6 id).1
  cases id <;> exact this

theorem C8_invalid_form_blocks_submission_witness :
    (handleSubmitStart (js "2024-01-01T00:00:00.000Z") (samplePage "" "bad" "hi" "short")).2 =
        none ∧
      (handleSubmit (js "2024-01-01T00:00:00.000Z") 0
          (samplePage "" "bad" "hi" "short")).formMessage =
        some { classList := [js "alert", js "alert-error"],
               messageText := some (js "Please fix the errors below.") } :=
  ⟨(C8_invalid_form_blocks_submission (js "2024-01-01T00:00:00.000Z") 0
      (samplePage "" "bad" "hi" "short") (by decide) (by decide)).1,
   (C8_invalid_form_blocks_submission (js "2024-01-01T00:00:00.000Z") 0
      (samplePage "" "bad" "hi" "short") (by decide) (by decide)).2.2.1⟩

theorem simulateFormSubmission_fst (formData : FormData) (draw : ℚ) (h : Handler) :
    (simulateFormSubmission formData draw h).1 =
      { h with console := h.console ++ [ConsoleEntry.log (js "Form submission:") formData] } := by
  unfold simulateFormSubmission
  split <;> rfl

theorem simulateFormSubmission_fails (formData : FormData) (draw : ℚ) (h : Handler)
    (hfail : draw < 1 / 10) :
    (simulateFormSubmission formData draw h).2 = Except.error (js "Simulated network error") := by
  unfold simulateFormSubmission
  rw [if_pos hfail]

theorem simulateFormSubmission_succeeds (formData : FormData) (draw : ℚ) (h : Handler)
    (hok : ¬ draw < 1 / 10) :
    (simulateFormSubmission formData draw h).2 = Except.ok () := by
  unfold simulateFormSubmission
  rw [if_neg hok]

theorem handleSubmitFinish_of_fail (formData : FormData) (draw : ℚ) (h : Handler)
    (hfail : draw < 1 / 10) :
    handleSubmitFinish formData draw h =
      showLoadingState false
        { showMessage (js "Sorry, there was an error sending your message. Please try again.")
            (js "error")
            { h with
              console := h.console ++ [ConsoleEntry.log (js "Form submission:") formData] ++
                [ConsoleEntry.error (js "Form submission error:")
                  (js "Simulated network error")] } with
          isSubmitting := false } := by
  unfold handleSubmitFinish
  simp only [simulateFormSubmission_fails formData draw h hfail, simulateFormSubmission_fst]

theorem handleSubmitFinish_of_ok (formData : FormData) (draw : ℚ) (h : Handler)
    (hok : ¬ draw < 1 / 10) :
    handleSubmitFinish formData draw h =
      showLoadingState false
        { resetForm (showMessage
            (js "Thank you for your message! I\x27ll get back to you soon.") (js "success")
            { h with
              console := h.console ++ [ConsoleEntry.log (js "Form submission:") formData] }) with
          isSubmitting := false } := by
  unfold handleSubmitFinish
  simp only [simulateFormSubmission_succeeds formData draw h hok, simulateFormSubmission_fst]

theorem handleSubmitFinish_idle (formData : FormData) (draw : ℚ) (h : Handler) :
    (handleSubmitFinish formData draw h).isSubmitting = false ∧
      (handleSubmitFinish formData draw h).submitButton.disabled = false := by
  by_cases hfail : draw < 1 / 10
  · rw [handleSubmitFinish_of_fail formData draw h hfail]
    exact ⟨(showLoadingState_frame false _).1, (showLoadingState_frame false _).2.2.2.2.1⟩
  · rw [handleSubmitFinish_of_ok formData draw h hfail]
    exact ⟨(showLoadingState_frame false _).1, (showLoadingState_frame false _).2.2.2.2.1⟩

theorem handleSubmit_of_valid (now : JSString) (draw : ℚ) (h : Handler)
    (hidle : h.isSubmitting = false) (hvalid : (validateForm h).2 = true) :
    handleSubmit now draw h =
      handleSubmitFinish
        (getFormData now (showLoadingState true { (validateForm h).1 with isSubmitting := true }))
        draw (showLoadingState true { (validateForm h).1 with isSubmitting := true }) := by
  simp [handleSubmit, handleSubmitStart_of_valid now h hidle hvalid]

/-- C9. For every submission that starts with no submission in flight and a valid form, the
synchronous part of `handleSubmit` sets `isSubmitting`, disables the submit button and
invokes the transport; and when `handleSubmit` completes, whether the transport succeeded or
failed and whatever happened on the page in between, `isSubmitting` is `false` again and the
submit button is enabled, so that the next call is not ignored. -/
theorem C9_returns_to_idle (now : JSString) (h : Handler)
    (hidle : h.isSubmitting = false) (hvalid : (validateForm h).2 = true) :
    (∃ formData, (handleSubmitStart now h).2 = some formData) ∧
      (handleSubmitStart now h).1.isSubmitting = true ∧
      (handleSubmitStart now h).1.submitButton.disabled = true ∧
      (∀ (formData : FormData) (draw : ℚ) (h1 : Handler),
        (handleSubmitFinish formData draw h1).isSubmitting = false ∧
        (handleSubmitFinish formData draw h1).submitButton.disabled = false) ∧
      (∀ draw : ℚ,
        (handleSubmit now draw h).isSubmitting = false ∧
        (handleSubmit now draw h).submitButton.disabled = false) := by
  have hs := handleSubmitStart_of_valid now h hidle hvalid
  refine ⟨⟨_, by rw [hs]⟩, ?_, ?_, fun fd draw h1 => handleSubmitFinish_idle fd draw h1, ?_⟩
  · rw [hs]
    exact (showLoadingState_frame true _).1
  · rw [hs]
    exact (showLoadingState_frame true _).2.2.2.2.1
  · intro draw
    rw [handleSubmit_of_valid now draw h hidle hvalid]
    exact handleSubmitFinish_idle _ _ _

theorem C9_returns_to_idle_witness :
    (handleSubmit (js "2024-01-01T00:00:00.000Z") 0
        (samplePage "Al" "a@b.co" "Hello there" "This is a message")).isSubmitting = false ∧
      (handleSubmit (js "2024-01-01T00:00:00.000Z") (1 / 2)
        (samplePage "Al" "a@b.co" "Hello there" "This is a message")).isSubmitting = false ∧
      (handleSubmit (js "2024-01-01T00:00:00.000Z") (1 / 2)
        (samplePage "Al" "a@b.co" "Hello there" "This is a message")).submitButton.disabled =
          false :=
  ⟨((C9_returns_to_idle (js "2024-01-01T00:00:00.000Z")
      (samplePage "Al" "a@b.co" "Hello there" "This is a message")
      (by decide) (by decide)).2.2.2.2 0).1,
   ((C9_returns_to_idle (js "2024-01-01T00:00:00.000Z")
      (samplePage "Al" "a@b.co" "Hello there" "This is a message")
      (by decide) (by decide)).2.2.2.2 (1 / 2)).1,
   ((C9_returns_to_idle (js "2024-01-01T00:00:00.000Z")
      (samplePage "Al" "a@b.co" "Hello there" "This is a message")
      (by decide) (by decide)).2.2.2.2 (1 / 2)).2⟩

theorem validateForm_snd_congr (h1 h2 : Handler)
    (hsame : ∀ id, (h1.getElementById id).value = (h2.getElementById id).value ∧
      (h1.getElementById id).name = (h2.getElementById id).name) :
    (validateForm h1).2 = (validateForm h2).2 := by
  have key : ∀ id, (validateField (h1.getElementById id)).2 =
      (validateField (h2.getElementById id)).2 :=
    fun id => validateField_snd_congr _ _ (hsame id).2 (hsame id).1
  rw [Bool.eq_iff_iff, validateForm_true_iff, validateForm_true_iff]
  simp only [key]

theorem handleSubmitFinish_fail_frame (formData : FormData) (draw : ℚ) (h : Handler)
    (hfail : draw < 1 / 10) :
    (handleSubmitFinish formData draw h).formMessage =
        h.formMessage.map (errorShown
          (js "Sorry, there was an error sending your message. Please try again.")) ∧
      (handleSubmitFinish formData draw h).hideTimers = h.hideTimers ∧
      ∀ id, (handleSubmitFinish formData draw h).getElementById id = h.getElementById id := by
  rw [handleSubmitFinish_of_fail formData draw h hfail, showMessage_error]
  obtain ⟨-, f2, f3, -, -, f6⟩ := showLoadingState_frame false
    { ({ h with
          console := h.console ++ [ConsoleEntry.log (js "Form submission:") formData] ++
            [ConsoleEntry.error (js "Form submission error:") (js "Simulated network error")],
          formMessage := h.formMessage.map (errorShown
            (js "Sorry, there was an error sending your message. Please try again.")) } :
        Handler) with isSubmitting := false }
  refine ⟨f2, f3, fun id => ?_⟩
  rw [f6 id]
  cases id <;> rfl

/-- C10. For every submission with a valid form whose transport call fails, `handleSubmit`
shows the fixed message
`Sorry, there was an error sending your message. Please try again.` with severity error
(the element `#form-message`, where the page has it, gets the classes `alert alert-error` and
that text, which does not depend on the error thrown by the transport, and no timer is
set) and leaves the four field values as they were, so that a further call of `handleSubmit`
invokes the transport with the same content. The same holds for the part of `handleSubmit`
after the `await` from any state of the page. -/
theorem C10_transport_failure_keeps_fields (now : JSString) (draw : ℚ) (h : Handler)
    (hidle : h.isSubmitting = false) (hvalid : (validateForm h).2 = true)
    (hfail : draw < 1 / 10) :
    (∀ (formData : FormData) (h1 : Handler),
        (simulateFormSubmission formData draw h1).2 =
          Except.error (js "Simulated network error")) ∧
      (handleSubmit now draw h).formMessage =
        h.formMessage.map (errorShown
          (js "Sorry, there was an error sending your message. Please try again.")) ∧
      (handleSubmit now draw h).hideTimers = h.hideTimers ∧
      (∀ id, ((handleSubmit now draw h).getElementById id).value =
        (h.getElementById id).value) ∧
      (∀ now2 : JSString, (handleSubmitStart now2 (handleSubmit now draw h)).2 =
        some { name := trim h.nameField.value, email := trim h.emailField.value,
               subject := trim h.subjectField.value, message := trim h.messageField.value,
               timestamp := now2 }) ∧
      (∀ (formData : FormData) (h1 : Handler),
        (handleSubmitFinish formData draw h1).formMessage =
          h1.formMessage.map (errorShown
            (js "Sorry, there was an error sending your message. Please try again.")) ∧
        ∀ id, (handleSubmitFinish formData draw h1).getElementById id =
          h1.getElementById id) := by
  have hrun := handleSubmit_of_valid now draw h hidle hvalid
  obtain ⟨-, v2, -, v4, -, v6⟩ := validateForm_frame h
  obtain ⟨-, l2, l3, -, -, l6⟩ :=
    showLoadingState_frame true { (validateForm h).1 with isSubmitting := true }
  obtain ⟨g1, g2, g3⟩ := handleSubmitFinish_fail_frame
    (getFormData now (showLoadingState true { (validateForm h).1 with isSubmitting := true }))
    draw (showLoadingState true { (validateForm h).1 with isSubmitting := true }) hfail
  have hfield : ∀ id, (handleSubmit now draw h).getElementById id =
      (validateForm h).1.getElementById id := by
    intro id
    rw [hrun, g3 id, l6 id]
    cases id <;> rfl
  have hvals : ∀ id, ((handleSubmit now draw h).getElementById id).value =
        (h.getElementById id).value ∧
      ((handleSubmit now draw h).getElementById id).name = (h.getElementById id).name := by
    intro id
    rw [hfield id]
    exact v6 id
  refine ⟨fun fd h1 => simulateFormSubmission_fails fd draw h1 hfail, ?_, ?_,
    fun id => (hvals id).1, ?_, ?_⟩
  · rw [hrun, g1, l2]
    exact congrArg _ v2
  · rw [hrun, g2, l3]
    exact v4
  · intro now2
    have hidle2 : (handleSubmit now draw h).isSubmitting = false := by
      rw [hrun]
      exact (handleSubmitFinish_idle _ _ _).1
    have hvalid2 : (validateForm (handleSubmit now draw h)).2 = true := by
      rw [validateForm_snd_congr _ h hvals]
      exact hvalid
    rw [handleSubmitStart_of_valid now2 _ hidle2 hvalid2]
    simp only [getFormData, Option.some.injEq, FormData.mk.injEq, and_true]
    obtain ⟨-, -, -, -, -, m6⟩ := showLoadingState_frame true
      { (validateForm (handleSubmit now draw h)).1 with isSubmitting := true }
    obtain ⟨-, -, -, -, -, w6⟩ := validateForm_frame (handleSubmit now draw h)
    have hv : ∀ id, ((showLoadingState true
        { (validateForm (handleSubmit now draw h)).1 with isSubmitting := true }).getElementById
          id).value = (h.getElementById id).value := by
      intro id
      rw [m6 id]
      have := (w6 id).1
      rw [(hvals id).1] at this
      cases id <;> exact this
    exact ⟨congrArg trim (hv .name), congrArg trim (hv .email), congrArg trim (hv .subject),
      congrArg trim (hv .message)⟩
  · intro fd h1
    obtain ⟨k1, -, k3⟩ := handleSubmitFinish_fail_frame fd draw h1 hfail
    exact ⟨k1, k3⟩

theorem C10_transport_failure_keeps_fields_witness :
    (handleSubmit (js "2024-01-01T00:00:00.000Z") 0
        (samplePage "Al" "a@b.co" "Hello there" "This is a message")).formMessage =
        some { classList := [js "alert", js "alert-error"],
               messageText := some
                 (js "Sorry, there was an error sending your message. Please try again.") } ∧
      ((handleSubmit (js "2024-01-01T00:00:00.000Z") 0
        (samplePage "Al" "a@b.co" "Hello there" "This is a message")).getElementById
          FieldId.message).value = js "This is a message" :=
  ⟨(C10_transport_failure_keeps_fields (js "2024-01-01T00:00:00.000Z") 0
      (samplePage "Al" "a@b.co" "Hello there" "This is a message")
      (by decide) (by decide) (by norm_num)).2.1,
   (C10_transport_failure_keeps_fields (js "2024-01-01T00:00:00.000Z") 0
      (samplePage "Al" "a@b.co" "Hello there" "This is a message")
      (by decide) (by decide) (by norm_num)).2.2.2.1 FieldId.message⟩

/-! ## The payload -/

theorem handleSubmitStart_some (now : JSString) (h : Handler) (formData : FormData)
    (hsome : (handleSubmitStart now h).2 = some formData) :
    h.isSubmitting = false ∧ (validateForm h).2 = true := by
  cases hb : h.isSubmitting with
  | true => simp [handleSubmitStart, hb] at hsome
  | false =>
    cases hv : (validateForm h).2 with
    | true => exact ⟨rfl, rfl⟩
    | false => rw [handleSubmitStart_of_invalid now h hb hv] at hsome; cases hsome

theorem validationResult_valid_ne_nil (fieldName raw : JSString)
    (hv : (validationResult fieldName raw).valid = true) : trim raw ≠ [] := by
  intro hnil
  simp [validationResult, hnil] at hv

/-- The payload built by `handleSubmitStart` from a valid, idle form. -/
theorem handleSubmitStart_payload (now : JSString) (h : Handler)
    (hidle : h.isSubmitting = false) (hvalid : (validateForm h).2 = true) :
    (handleSubmitStart now h).2 =
      some { name := trim h.nameField.value, email := trim h.emailField.value,
             subject := trim h.subjectField.value, message := trim h.messageField.value,
             timestamp := now } := by
  rw [handleSubmitStart_of_valid now h hidle hvalid]
  obtain ⟨-, -, -, -, -, l6⟩ :=
    showLoadingState_frame true { (validateForm h).1 with isSubmitting := true }
  obtain ⟨-, -, -, -, -, v6⟩ := validateForm_frame h
  have hv : ∀ id, ((showLoadingState true
      { (validateForm h).1 with isSubmitting := true }).getElementById id).value =
        (h.getElementById id).value := by
    intro id
    rw [l6 id]
    have := (v6 id).1
    cases id <;> exact this
  simp only [getFormData, Option.some.injEq, FormData.mk.injEq, and_true]
  exact ⟨congrArg trim (hv .name), congrArg trim (hv .email), congrArg trim (hv .subject),
    congrArg trim (hv .message)⟩

/-- C12. On a page where each of the four controls has a `name` attribute equal to its id,
whenever `handleSubmit` invokes the transport, the payload it passes holds the trimmed
current values of the four fields (and the time stamp read at that moment); all four are
non-empty, the name has length at least 2, the subject at least 5, the message at least 10,
and the email is accepted by the email pattern of `validateField`. -/
theorem C12_payload_is_trimmed_and_valid (now : JSString) (h : Handler) (formData : FormData)
    (hnames : ∀ id, (h.getElementById id).name = id.idString)
    (hsent : (handleSubmitStart now h).2 = some formData) :
    (formData.name = trim h.nameField.value ∧ formData.email = trim h.emailField.value ∧
        formData.subject = trim h.subjectField.value ∧
        formData.message = trim h.messageField.value ∧ formData.timestamp = now) ∧
      (formData.name ≠ [] ∧ formData.email ≠ [] ∧ formData.subject ≠ [] ∧
        formData.message ≠ []) ∧
      (2 ≤ formData.name.length ∧ 5 ≤ formData.subject.length ∧
        10 ≤ formData.message.length ∧ emailRegex.test formData.email = true) := by
  obtain ⟨hidle, hvalid⟩ := handleSubmitStart_some now h formData hsent
  rw [handleSubmitStart_payload now h hidle hvalid] at hsent
  simp only [Option.some.injEq] at hsent
  subst hsent
  have hall := (validateForm_true_iff h).mp hvalid
  have n1 := hall .name
  have n2 := hall .email
  have n3 := hall .subject
  have n4 := hall .message
  rw [validateField_snd, hnames] at n1 n2 n3 n4
  simp only [Handler.getElementById, Handler.control, FieldId.idString] at n1 n2 n3 n4
  have t1 := validationResult_valid_ne_nil _ _ n1
  have t2 := validationResult_valid_ne_nil _ _ n2
  have t3 := validationResult_valid_ne_nil _ _ n3
  have t4 := validationResult_valid_ne_nil _ _ n4
  rw [validationResult_name _ t1] at n1
  rw [validationResult_email _ t2] at n2
  rw [validationResult_subject _ t3] at n3
  rw [validationResult_message _ t4] at n4
  refine ⟨⟨rfl, rfl, rfl, rfl, rfl⟩, ⟨t1, t2, t3, t4⟩, ?_⟩
  show 2 ≤ (trim h.nameField.value).length ∧ 5 ≤ (trim h.subjectField.value).length ∧
    10 ≤ (trim h.messageField.value).length ∧ emailRegex.test (trim h.emailField.value) = true
  refine ⟨?_, ?_, ?_, ?_⟩
  · by_contra hlt
    rw [if_pos (by omega)] at n1
    simp [tooShort] at n1
  · by_contra hlt
    rw [if_pos (by omega)] at n3
    simp [tooShort] at n3
  · by_contra hlt
    rw [if_pos (by omega)] at n4
    simp [tooShort] at n4
  · by_contra hrej
    rw [if_neg hrej] at n2
    simp at n2

theorem C12_payload_is_trimmed_and_valid_witness :
    (handleSubmitStart (js "2024-01-01T00:00:00.000Z")
        (samplePage " Al " "a@b.co" "Hello there" "This is a message")).2 =
      some { name := js "Al", email := js "a@b.co", subject := js "Hello there",
             message := js "This is a message", timestamp := js "2024-01-01T00:00:00.000Z" } ∧
      2 ≤ (js "Al").length ∧ emailRegex.test (js "a@b.co") = true :=
  ⟨by decide,
   (C12_payload_is_trimmed_and_valid (js "2024-01-01T00:00:00.000Z")
      (samplePage " Al " "a@b.co" "Hello there" "This is a message")
      { name := js "Al", email := js "a@b.co", subject := js "Hello there",
        message := js "This is a message", timestamp := js "2024-01-01T00:00:00.000Z" }
      (by intro id; cases id <;> decide) (by decide)).2.2.1,
   (C12_payload_is_trimmed_and_valid (js "2024-01-01T00:00:00.000Z")
      (samplePage " Al " "a@b.co" "Hello there" "This is a message")
      { name := js "Al", email := js "a@b.co", subject := js "Hello there",
        message := js "This is a message", timestamp := js "2024-01-01T00:00:00.000Z" }
      (by intro id; cases id <;> decide) (by decide)).2.2.2.2.2⟩

/-! ## Successful submission -/

theorem showMessage_success (message : JSString) (h : Handler) :
    showMessage message (js "success") h =
      { h with
        formMessage := h.formMessage.map (successShown message)
        hideTimers := if h.formMessage.isSome then h.hideTimers + 1 else h.hideTimers } := by
  have e1 : js "success" ≠ js "error" := by decide
  have e2 : ClassList.remove [js "alert", js "alert-" ++ js "success"] (js "hidden") =
      [js "alert", js "alert-success"] := by decide
  obtain ⟨b, f1, f2, f3, f4, es, fm, sb, t, c⟩ := h
  cases fm with
  | none => rfl
  | some m => simp [showMessage, successShown, e1, e2]

theorem handleSubmitFinish_ok_frame (formData : FormData) (draw : ℚ) (h : Handler)
    (hok : ¬ draw < 1 / 10) :
    (handleSubmitFinish formData draw h).formMessage =
        h.formMessage.map (successShown
          (js "Thank you for your message! I\x27ll get back to you soon.")) ∧
      ∀ id, ResetState (h.getElementById id).defaultValue
        ((handleSubmitFinish formData draw h).getElementById id) := by
  rw [handleSubmitFinish_of_ok formData draw h hok, showMessage_success]
  obtain ⟨-, f2, -, -, -, f6⟩ := showLoadingState_frame false
    { resetForm ({ h with
          console := h.console ++ [ConsoleEntry.log (js "Form submission:") formData],
          formMessage := h.formMessage.map (successShown
            (js "Thank you for your message! I\x27ll get back to you soon.")),
          hideTimers := if h.formMessage.isSome then h.hideTimers + 1 else h.hideTimers } :
        Handler) with isSubmitting := false }
  refine ⟨?_, fun id => ?_⟩
  · rw [f2]
    exact (resetForm_frame _).2.1
  · rw [f6 id]
    exact resetForm_spec ({ h with
          console := h.console ++ [ConsoleEntry.log (js "Form submission:") formData],
          formMessage := h.formMessage.map (successShown
            (js "Thank you for your message! I\x27ll get back to you soon.")),
          hideTimers := if h.formMessage.isSome then h.hideTimers + 1 else h.hideTimers } :
        Handler) id

/-- After a successful submission from an idle, valid form every control is reset to its
default value, and the form message is the success message. -/
theorem handleSubmit_success_frame (now : JSString) (draw : ℚ) (h : Handler)
    (hidle : h.isSubmitting = false) (hvalid : (validateForm h).2 = true)
    (hok : ¬ draw < 1 / 10) :
    (handleSubmit now draw h).formMessage =
        h.formMessage.map (successShown
          (js "Thank you for your message! I\x27ll get back to you soon.")) ∧
      ∀ id, ResetState (h.getElementById id).defaultValue
        ((handleSubmit now draw h).getElementById id) := by
  obtain ⟨-, v2, -, -, -, -⟩ := validateForm_frame h
  obtain ⟨-, l2, -, -, -, l6⟩ :=
    showLoadingState_frame true { (validateForm h).1 with isSubmitting := true }
  obtain ⟨g1, g2⟩ := handleSubmitFinish_ok_frame
    (getFormData now (showLoadingState true { (validateForm h).1 with isSubmitting := true }))
    draw (showLoadingState true { (validateForm h).1 with isSubmitting := true }) hok
  rw [handleSubmit_of_valid now draw h hidle hvalid]
  refine ⟨?_, fun id => ?_⟩
  · rw [g1, l2]
    exact congrArg _ v2
  · have := g2 id
    rw [l6 id] at this
    rw [← validateForm_defaultValue h id]
    exact this

/-- C11, as stated, fails: on a page with valid content whose `name` control declares the
default value `Your name`, a successful submission leaves that control holding
`Your name`, not the empty string. -/
theorem C11_counterexample :
    prefilledPage.isSubmitting = false ∧ (validateForm prefilledPage).2 = true ∧
      ¬ ((1 / 2 : ℚ) < 1 / 10) ∧
      ((handleSubmit (js "2024-01-01T00:00:00.000Z") (1 / 2) prefilledPage).getElementById
        FieldId.name).value = js "Your name" ∧
      ((handleSubmit (js "2024-01-01T00:00:00.000Z") (1 / 2) prefilledPage).getElementById
        FieldId.name).value ≠ [] := by
  have hidle : prefilledPage.isSubmitting = false := by decide
  have hvalid : (validateForm prefilledPage).2 = true := by decide
  have hok : ¬ ((1 / 2 : ℚ) < 1 / 10) := by norm_num
  have hf := ((handleSubmit_success_frame (js "2024-01-01T00:00:00.000Z") (1 / 2) prefilledPage
    hidle hvalid hok).2 FieldId.name).1
  have hd : (prefilledPage.getElementById FieldId.name).defaultValue = js "Your name" := by
    decide
  rw [hd] at hf
  refine ⟨hidle, hvalid, hok, hf, ?_⟩
  rw [hf]
  decide

/-- C11, amended. For every submission with a valid form whose transport call succeeds,
`handleSubmit` shows a message with severity success (the element `#form-message`, where the
page has it, gets the classes `alert alert-success` and the thank-you text), resets each of
the four field values to the default value of its control, so that every field without a
declared default is cleared, and removes every field's visual validation state: no field
keeps the class `error` or `success`, and every error element is hidden. The same holds
for the part of `handleSubmit` after the `await` from any state of the page. -/
theorem C11_success_resets_form (now : JSString) (draw : ℚ) (h : Handler)
    (hidle : h.isSubmitting = false) (hvalid : (validateForm h).2 = true)
    (hok : ¬ draw < 1 / 10) :
    (∀ (formData : FormData) (h1 : Handler),
        (simulateFormSubmission formData draw h1).2 = Except.ok ()) ∧
      (handleSubmit now draw h).formMessage =
        h.formMessage.map (successShown
          (js "Thank you for your message! I\x27ll get back to you soon.")) ∧
      (∀ id, ((handleSubmit now draw h).getElementById id).value =
        (h.getElementById id).defaultValue) ∧
      (∀ id, (h.getElementById id).defaultValue = [] →
        ((handleSubmit now draw h).getElementById id).value = []) ∧
      (∀ id, js "error" ∉ ((handleSubmit now draw h).getElementById id).classList ∧
        js "success" ∉ ((handleSubmit now draw h).getElementById id).classList) ∧
      (∀ id, ∀ e ∈ ((handleSubmit now draw h).getElementById id).errorElement,
        js "hidden" ∈ e.classList) ∧
      (∀ (formData : FormData) (h1 : Handler),
        (handleSubmitFinish formData draw h1).formMessage =
          h1.formMessage.map (successShown
            (js "Thank you for your message! I\x27ll get back to you soon.")) ∧
        ∀ id, ((handleSubmitFinish formData draw h1).getElementById id).value =
            (h1.getElementById id).defaultValue ∧
          js "error" ∉ ((handleSubmitFinish formData draw h1).getElementById id).classList ∧
          js "success" ∉ ((handleSubmitFinish formData draw h1).getElementById id).classList ∧
          ∀ e ∈ ((handleSubmitFinish formData draw h1).getElementById id).errorElement,
            js "hidden" ∈ e.classList) := by
  obtain ⟨hmsg, hfield⟩ := handleSubmit_success_frame now draw h hidle hvalid hok
  refine ⟨fun fd h1 => simulateFormSubmission_succeeds fd draw h1 hok, hmsg,
    fun id => (hfield id).1, ?_, ?_, ?_, ?_⟩
  · intro id hd
    rw [(hfield id).1, hd]
  · intro id
    exact ⟨(hfield id).2.2.1, (hfield id).2.2.2.1⟩
  · intro id
    exact (hfield id).2.2.2.2
  · intro fd h1
    obtain ⟨k1, k2⟩ := handleSubmitFinish_ok_frame fd draw h1 hok
    exact ⟨k1, fun id => ⟨(k2 id).1, (k2 id).2.2.1, (k2 id).2.2.2.1, (k2 id).2.2.2.2⟩⟩

theorem C11_success_resets_form_witness :
    (handleSubmit (js "2024-01-01T00:00:00.000Z") (1 / 2)
        (samplePage "Al" "a@b.co" "Hello there" "This is a message")).formMessage =
        some { classList := [js "alert", js "alert-success"],
               messageText := some
                 (js "Thank you for your message! I\x27ll get back to you soon.") } ∧
      ((handleSubmit (js "2024-01-01T00:00:00.000Z") (1 / 2)
        (samplePage "Al" "a@b.co" "Hello there" "This is a message")).getElementById
          FieldId.message).value = [] ∧
      js "success" ∉ ((handleSubmit (js "2024-01-01T00:00:00.000Z") (1 / 2)
        (samplePage "Al" "a@b.co" "Hello there" "This is a message")).getElementById
          FieldId.message).classList :=
  ⟨(C11_success_resets_form (js "2024-01-01T00:00:00.000Z") (1 / 2)
      (samplePage "Al" "a@b.co" "Hello there" "This is a message")
      (by decide) (by decide) (by norm_num)).2.1,
   (C11_success_resets_form (js "2024-01-01T00:00:00.000Z") (1 / 2)
      (samplePage "Al" "a@b.co" "Hello there" "This is a message")
      (by decide) (by decide) (by norm_num)).2.2.2.1 FieldId.message (by decide),
   ((C11_success_resets_form (js "2024-01-01T00:00:00.000Z") (1 / 2)
      (samplePage "Al" "a@b.co" "Hello there" "This is a message")
      (by decide) (by decide) (by norm_num)).2.2.2.2.1 FieldId.message).2⟩

end ContactForm
